import Mathlib

/-!
# Verification of the Marshee pet-recommendation core

Shallow embedding of the three algorithmic services of the repository
(`app/services/safety_filter.py`, `app/services/recommendation.py`,
`app/services/ml_tag_generator.py`) together with proofs of the testable
properties stated in the specification.

Modelling conventions:
* Python `str` is modelled by Lean `String`; the Python string methods
  `lower`, `strip`, `in` (substring test) and `startswith` are modelled by
  structurally recursive functions over `String.data` (`pyLower`, `pyStrip`,
  `pyIn`, …).  `lower`/`strip` are modelled at ASCII granularity, which is
  the granularity every string constant of the program uses.
* Python `float` arithmetic on scores is modelled by `ℚ`.  All score
  constants of the program (0.35, 0.8, …) are decimal fractions, and no
  claim under consideration depends on binary rounding of IEEE doubles.
* Python dicts holding product records are modelled by a structure
  (`Product`); `dict.get(key, default)` corresponds to a total field whose
  value defaults to the empty string / empty list.  The program reads both
  a key `"age_groups"` (safety filter) and a key `"age_group"`
  (scoring, tag generation); these are two distinct fields of the model.
-/

namespace Marshee

/-! ## Python string primitives -/
/-- Test whether `needle` occurs at the head of `hay` (chars compared one by one). -/
def startsWithChars : List Char → List Char → Bool
  | [], _ => true
  | _ :: _, [] => false
  | a :: as, b :: bs => a == b && startsWithChars as bs

/-- Substring occurrence test on char lists: models Python `needle in hay`.
The empty needle occurs in every string, as in Python. -/
def containsChars (needle : List Char) : List Char → Bool
  | [] => needle.isEmpty
  | c :: t => startsWithChars needle (c :: t) || containsChars needle t

/-- Python `needle in hay` for strings. -/
def pyIn (needle hay : String) : Bool := containsChars needle.data hay.data

/-- Python `str.lower()` (ASCII case folding, as used by the program). -/
def pyLower (s : String) : String := ⟨s.data.map Char.toLower⟩

/-- Drop whitespace on both ends of a char list. -/
def trimChars (l : List Char) : List Char :=
  ((l.dropWhile Char.isWhitespace).reverse.dropWhile Char.isWhitespace).reverse

/-- Python `str.strip()`. -/
def pyStrip (s : String) : String := ⟨trimChars s.data⟩

/-- Python `repr`-style rendering of a list of strings, used only inside
human-readable reason messages (Python interpolates the list into an
f-string; the element quoting of `repr` is immaterial to every claim and is
not reproduced). -/
def formatList (l : List String) : String := "[" ++ String.intercalate ", " l ++ "]"

/-! ## Data model (`app/models/pet.py` and the product dicts) -/
/-- The `PetProfile` pydantic model: only the fields the core services
read.  `gender` may be empty (Python falsy). -/
structure PetProfile where
  name : String := ""
  category : String := ""
  gender : String := ""
  breed : String := ""
  age_group : String := ""
  health_conditions : List String := []
  known_allergies : List String := []
deriving Repr, DecidableEq

/-- The `product["safety"]` sub-record; absent keys default to empty. -/
structure SafetyData where
  allergens : List String := []
  age_restrictions : String := ""
  health_warnings : List String := []
deriving Repr, DecidableEq

/-- The `product["business_data"]` sub-record; absent keys default to 0 / False. -/
structure BusinessData where
  avg_rating : ℚ := 0
  total_reviews : ℤ := 0
  popularity_score : ℚ := 0
  is_premium : Bool := false
deriving Repr, DecidableEq

/-- The `product["nutrition"]` sub-record. -/
structure NutritionData where
  diet_type : String := ""
  ingredient_claims : String := ""
  nutrient_claims : String := ""
deriving Repr, DecidableEq

/-- The `product["metadata"]` sub-record. -/
structure MetadataData where
  specific_uses : List String := []
  item_form : String := ""
deriving Repr, DecidableEq

/-- A catalog product record (a Python dict).  Note the program reads the
two distinct keys `"age_groups"` (safety age gate) and `"age_group"`
(scoring bonus, reason text, tag generation); both are modelled. -/
structure Product where
  name : String := ""
  description : String := ""
  product_type : String := ""   -- key "Product_type"
  pet_type : String := ""
  category : String := ""
  sub_category : String := ""
  brand : String := ""
  age_groups : List String := []
  age_group : List String := []
  breed_size : List String := []
  ingredients : List String := []
  tags : List String := []
  safety : SafetyData := {}
  business_data : BusinessData := {}
  nutrition : NutritionData := {}
  metadata : MetadataData := {}
deriving Repr, DecidableEq

/-! ## SafetyFilter (`app/services/safety_filter.py`) -/
/-- Models `SafetyFilter._check_age_compatibility`. -/
def check_age_compatibility (pet : PetProfile) (product : Product) : Bool :=
  let product_age_groups := product.age_groups
  let pet_age_group := pyLower pet.age_group
  if product_age_groups.isEmpty then true
  else product_age_groups.any (fun allowed_age => pyLower allowed_age == pet_age_group)

/-- Models `SafetyFilter._check_allergies`: every lowered+stripped allergy is
tested for substring occurrence inside every lowered+stripped ingredient,
then inside every lowered+stripped tag. -/
def check_allergies (pet : PetProfile) (product : Product) : Bool :=
  let pet_allergies := pet.known_allergies.map (fun a => pyStrip (pyLower a))
  if pet_allergies.isEmpty then true
  else if product.ingredients.any
      (fun ing => pet_allergies.any (fun al => pyIn al (pyStrip (pyLower ing)))) then false
  else if product.tags.any
      (fun tag => pet_allergies.any (fun al => pyIn al (pyStrip (pyLower tag)))) then false
  else true

/-- Models `SafetyFilter._check_health_conditions`. -/
def check_health_conditions (pet : PetProfile) (product : Product) : Bool :=
  let pet_conditions := pet.health_conditions.map (fun c => pyStrip (pyLower c))
  if pet_conditions.isEmpty then true
  else if product.safety.health_warnings.any
      (fun w => pet_conditions.any (fun c => pyIn c (pyStrip (pyLower w)))) then false
  else true

/-- Models `SafetyFilter._check_species_compatibility`. -/
def check_species_compatibility (pet : PetProfile) (product : Product) : Bool :=
  let product_category := pyStrip (pyLower pet.category)
  let product_pet_type := pyStrip (pyLower product.pet_type)
  if product_pet_type.isEmpty then true
  else product_category == product_pet_type

/-- Models `SafetyFilter.is_product_safe_for_pet`: the four hard checks in
sequence, short-circuiting on the first failure. -/
def is_product_safe_for_pet (pet : PetProfile) (product : Product) : Bool :=
  check_age_compatibility pet product &&
  (check_allergies pet product &&
  (check_health_conditions pet product &&
  check_species_compatibility pet product))

/-- Models `SafetyFilter.filter_products_for_pet`. -/
def filter_products_for_pet (pet : PetProfile) (products : List Product) : List Product :=
  products.filter (fun product => is_product_safe_for_pet pet product)

/-- Models `SafetyFilter.get_safety_reasons`: one message per failing check.
(The age message reads the `"age_group"` key, not `"age_groups"`.) -/
def get_safety_reasons (pet : PetProfile) (product : Product) : List String :=
  (if check_age_compatibility pet product then []
   else ["Age mismatch: Pet is " ++ pet.age_group ++ ", product is for " ++
         formatList product.age_group]) ++
  ((if check_allergies pet product then []
    else ["Contains allergens: Pet allergic to " ++ formatList pet.known_allergies]) ++
  ((if check_health_conditions pet product then []
    else ["Health condition conflict: Pet has " ++ formatList pet.health_conditions]) ++
  (if check_species_compatibility pet product then []
   else ["Species mismatch: Pet is " ++ pet.category ++ ", product is for " ++
         product.pet_type])))

/-! ## Recommendation engine (`app/services/recommendation.py`) -/
/-- First-occurrence deduplication, modelling Python's
`list(set(...))` up to enumeration order.  (CPython enumerates a `set` of
strings in an order that depends on per-process hash seeding; the theorems
below never depend on which enumeration is taken — where the order is
observable, claim C4, the enumeration is made an explicit parameter.) -/
def dedupFirstAux (seen : List String) : List String → List String
  | [] => []
  | x :: xs => if x ∈ seen then dedupFirstAux seen xs else x :: dedupFirstAux (x :: seen) xs

/-- Models `list(set(l))`: the distinct elements of `l`. -/
def pySetList (l : List String) : List String := dedupFirstAux [] l

/-- Models `BalancedRecommendationEngine.WEIGHTS` (fixed). -/
def weight_health : ℚ := 35/100

/-- Models `WEIGHTS['safety_allergy_match']`. -/
def weight_safety : ℚ := 30/100

/-- Models `WEIGHTS['general_compatibility']`. -/
def weight_compat : ℚ := 25/100

/-- Models `WEIGHTS['quality_business']`. -/
def weight_quality : ℚ := 10/100

/-- Models `HEALTH_CONDITION_MAPPING`, in dict insertion order (Python dicts
iterate in insertion order; first substring match wins via `break`). -/
def HEALTH_CONDITION_MAPPING : List (String × List String) :=
  [("arthritis", ["joint support", "joint care", "mobility", "glucosamine", "anti-inflammatory"]),
   ("joint issues", ["joint support", "joint care", "mobility", "glucosamine"]),
   ("hip dysplasia", ["joint support", "joint care", "hip health", "mobility"]),
   ("dental issues", ["dental care", "dental health", "tartar control", "oral health"]),
   ("dental problems", ["dental care", "dental health", "tartar control"]),
   ("skin issues", ["skin health", "omega-3", "coat care", "skin support"]),
   ("skin problems", ["skin health", "omega-3", "coat care"]),
   ("digestive issues", ["digestive health", "probiotics", "easy digest", "sensitive stomach"]),
   ("sensitive stomach", ["digestive health", "gentle", "easy digest", "sensitive"]),
   ("kidney disease", ["kidney support", "renal", "low phosphorus"]),
   ("heart disease", ["heart health", "cardiac", "low sodium"]),
   ("diabetes", ["diabetic", "low sugar", "blood sugar control"]),
   ("obesity", ["weight management", "weight control", "low calorie", "light"]),
   ("overweight", ["weight management", "weight control", "low calorie"]),
   ("allergies", ["hypoallergenic", "limited ingredient", "allergy relief"])]

/-- Models `AGE_GROUP_NEEDS`. -/
def AGE_GROUP_NEEDS : List (String × List String) :=
  [("puppy", ["growth", "development", "puppy formula", "high energy", "immunity"]),
   ("kitten", ["growth", "development", "kitten formula", "high energy"]),
   ("adult", ["maintenance", "adult formula", "balanced nutrition"]),
   ("senior", ["senior care", "senior formula", "joint support", "easy digest", "cognitive support"])]

/-- Models `BREED_SIZE_MAPPING`, in dict insertion order. -/
def BREED_SIZE_MAPPING : List (String × String) :=
  [("chihuahua", "small"), ("pomeranian", "small"), ("yorkshire terrier", "small"),
   ("maltese", "small"), ("pug", "medium"), ("beagle", "medium"),
   ("cocker spaniel", "medium"), ("labrador", "large"), ("golden retriever", "large"),
   ("german shepherd", "large"), ("rottweiler", "large")]

/-- The derived needs record returned by
`BalancedRecommendationEngine._analyze_pet_profile`. -/
structure PetAnalysis where
  health_needs : List String := []
  safety_requirements : List String := []
  age_needs : List String := []
  breed_considerations : List String := []
  general_tags : List String := []
deriving Repr, DecidableEq

/-- Models `BalancedRecommendationEngine._analyze_pet_profile`. -/
def analyze_pet_profile (pet : PetProfile) : PetAnalysis :=
  let health_needs := pet.health_conditions.flatMap (fun condition =>
    let condition_lower := pyStrip (pyLower condition)
    match HEALTH_CONDITION_MAPPING.find? (fun kv => pyIn kv.1 condition_lower) with
    | some kv => kv.2
    | none => [condition_lower])
  let safety_requirements := pet.known_allergies.flatMap (fun allergy =>
    let allergy_lower := pyStrip (pyLower allergy)
    (if pyIn "grain" allergy_lower then ["grain-free", "gluten-free"]
     else if pyIn "chicken" allergy_lower then ["chicken-free", "alternative protein"]
     else if pyIn "beef" allergy_lower then ["beef-free", "alternative protein"]
     else if pyIn "dairy" allergy_lower then ["dairy-free", "lactose-free"]
     else []) ++ ["hypoallergenic"])
  let age_needs := match AGE_GROUP_NEEDS.find? (fun kv => kv.1 == pyLower pet.age_group) with
    | some kv => kv.2
    | none => []
  let breed_considerations := if pet.breed == "" then []
    else (match BREED_SIZE_MAPPING.find? (fun kv => pyIn kv.1 (pyLower pet.breed)) with
      | some kv => [kv.2 ++ " breed"]
      | none => []) ++ [pyLower pet.breed]
  let general_tags := [pyLower pet.category, pyLower pet.age_group,
    if pet.gender == "" then "" else pyLower pet.gender]
  { health_needs := pySetList (health_needs.filter (· != "")),
    safety_requirements := pySetList (safety_requirements.filter (· != "")),
    age_needs := pySetList (age_needs.filter (· != "")),
    breed_considerations := pySetList (breed_considerations.filter (· != "")),
    general_tags := pySetList (general_tags.filter (· != "")) }

/-- Models `BalancedRecommendationEngine._calculate_health_condition_score`:
score together with its reason strings. -/
def calculate_health_condition_score (health_needs : List String) (product : Product) :
    ℚ × List String :=
  if health_needs.isEmpty then (1/2, ["No specific health needs identified"])
  else
    let all_product_text :=
      product.tags.map pyLower ++ [pyLower product.name, pyLower product.description]
    let matched_needs := health_needs.filter
      (fun need => all_product_text.any (fun t => pyIn (pyLower need) t))
    let score : ℚ := (matched_needs.length : ℚ) / (health_needs.length : ℚ)
    let reasons := if matched_needs.isEmpty then ["No specific health condition matches found"]
      else (matched_needs.take 3).map (fun need => "Addresses " ++ need)
    (min score 1, reasons)

/-- Models `BalancedRecommendationEngine._calculate_safety_allergy_score`.
(The age bonus reads the product key `"age_group"`.) -/
def calculate_safety_allergy_score (pet : PetProfile) (safety_requirements : List String)
    (product : Product) : ℚ × List String :=
  let pet_age := pyLower pet.age_group
  let product_age_groups := product.age_group.map pyLower
  let score0 : ℚ := 8/10
  let reasons0 : List String := ["Passes all safety requirements"]
  let score1 := if product_age_groups.contains pet_age then score0 + 1/10
    else if product_age_groups.isEmpty then score0 + 1/20
    else score0
  let reasons1 := if product_age_groups.contains pet_age then
    reasons0 ++ ["Perfect age match for " ++ pet_age] else reasons0
  let matched := safety_requirements.filter (fun requirement =>
    let req_lower := pyLower requirement
    (product.tags.map pyLower).any (fun tag => pyIn req_lower tag) ||
      pyIn req_lower (pyLower product.name))
  let score2 := if safety_requirements.isEmpty then score1
    else if 0 < matched.length then
      score1 + min ((matched.length : ℚ) / (safety_requirements.length : ℚ) * (1/10)) (1/10)
    else score1
  let reasons2 := reasons1 ++
    (matched.take 2).map (fun requirement => "Meets safety requirement: " ++ requirement)
  (min score2 1, reasons2.take 3)

/-- Models `BalancedRecommendationEngine._calculate_general_compatibility_score`. -/
def calculate_general_compatibility_score (pet : PetProfile) (analysis : PetAnalysis)
    (product : Product) : ℚ × List String :=
  let species_match := pyLower pet.category == pyLower product.pet_type
  let s1 : ℚ := if species_match then 2/5 else 0
  let r1 := if species_match then ["Perfect species match for " ++ pet.category] else []
  let all_pet_tags := analysis.age_needs ++ analysis.breed_considerations ++ analysis.general_tags
  let product_tags := product.tags.map pyLower
  -- len(set(lowered pet tags) & set(product tags))
  let tag_matches := (pySetList (all_pet_tags.map pyLower)).filter
    (fun t => product_tags.contains t)
  let tags_apply := !all_pet_tags.isEmpty && !product_tags.isEmpty && !tag_matches.isEmpty
  let s2 : ℚ := if tags_apply then
    ((tag_matches.length : ℚ) / (all_pet_tags.length : ℚ)) * (2/5) else 0
  let r2 := if tags_apply then
    ["Good tag compatibility (" ++ toString tag_matches.length ++ " matches)"] else []
  let product_breed_sizes := product.breed_size.map pyLower
  let pet_size := (BREED_SIZE_MAPPING.find? (fun kv => pyIn kv.1 (pyLower pet.breed))).map (·.2)
  let all_sizes := product_breed_sizes.any (fun sz => pyIn "all" sz)
  let size_match := match pet_size with
    | some ps => product_breed_sizes.any (fun sz => pyIn ps sz)
    | none => false
  let s3 : ℚ := if pet.breed == "" then 0
    else if all_sizes then 1/10
    else if size_match then 1/10 else 0
  let r3 := if pet.breed == "" then []
    else if all_sizes then ["Suitable for all breed sizes"]
    else if size_match then
      ["Perfect size match for " ++ ((pet_size).getD "") ++ " breed"] else []
  let food_match := pyIn "food" (pyLower product.category) &&
    (pyLower pet.category == "dog" || pyLower pet.category == "cat")
  let s4 : ℚ := if food_match then 1/10 else 0
  let r4 := if food_match then ["Appropriate food category"] else []
  (min (s1 + s2 + s3 + s4) 1, (r1 ++ r2 ++ r3 ++ r4).take 3)

/-- The trusted-brand allowlist of
`BalancedRecommendationEngine._calculate_quality_business_score`. -/
def trusted_brands : List String := ["paws for greens", "royal canin", "hills", "purina"]

/-- Models `BalancedRecommendationEngine._calculate_quality_business_score`. -/
def calculate_quality_business_score (product : Product) : ℚ :=
  let bd := product.business_data
  let s_rating : ℚ := if 0 < bd.avg_rating then (bd.avg_rating / 5) * (1/2) else 0
  let s_reviews : ℚ := if 10 ≤ bd.total_reviews then 1/5
    else if 5 ≤ bd.total_reviews then 1/10 else 0
  let s_popularity : ℚ := if 0 < bd.popularity_score then min (bd.popularity_score / 100) (3/10)
    else 0
  let s_premium : ℚ := if bd.is_premium then 1/10 else 0
  let brand := pyLower product.brand
  let s_brand : ℚ := if trusted_brands.any (fun t => pyIn t brand) then 1/10 else 0
  min (s_rating + s_reviews + s_popularity + s_premium + s_brand) 1

/-- Python `round(x, 3)` rounds half to even (modelled at the exact
rational value; the scores involved are decimal fractions). -/
def pyRoundHalfEven (q : ℚ) : ℤ :=
  let f := ⌊q⌋
  let r := q - (f : ℚ)
  if r < 1/2 then f
  else if 1/2 < r then f + 1
  else if Even f then f else f + 1

/-- Models `round(total_score, 3)`. -/
def round3 (q : ℚ) : ℚ := (pyRoundHalfEven (q * 1000) : ℚ) / 1000

/-- The four sub-scores (`score_breakdown` in the code). -/
structure ScoreBreakdown where
  health_condition_match : ℚ
  safety_allergy_match : ℚ
  general_compatibility : ℚ
  quality_business : ℚ
deriving Repr, DecidableEq

/-- The record returned by
`BalancedRecommendationEngine._calculate_balanced_score`. -/
structure ScoreResult where
  total_score : ℚ
  breakdown : ScoreBreakdown
  reasons : List String
deriving Repr, DecidableEq

/-- Models `BalancedRecommendationEngine._calculate_balanced_score`. -/
def calculate_balanced_score (pet : PetProfile) (product : Product)
    (pet_analysis : PetAnalysis) : ScoreResult :=
  let health := calculate_health_condition_score pet_analysis.health_needs product
  let safety := calculate_safety_allergy_score pet pet_analysis.safety_requirements product
  let compat := calculate_general_compatibility_score pet pet_analysis product
  let quality := calculate_quality_business_score product
  let quality_reasons := if 4/5 < quality then ["High-quality product with excellent ratings"]
    else if 3/5 < quality then ["Well-rated product"] else []
  let reasons := (health.2 ++ safety.2 ++ compat.2 ++ quality_reasons).take 5
  let total := health.1 * weight_health + safety.1 * weight_safety +
    compat.1 * weight_compat + quality * weight_quality
  { total_score := round3 total,
    breakdown := { health_condition_match := health.1, safety_allergy_match := safety.1,
                   general_compatibility := compat.1, quality_business := quality },
    reasons := reasons }

/-! ### C8: health sub-score refinement -/
/-- The spec's description of the health sub-score, written from its words:
"fraction of `needs.health_needs` found as a substring in the union of
{item tags, item name, item description}; if `needs.health_needs` is empty,
score defaults to 0.5" (no cap applied). -/
def spec_health_fraction (health_needs : List String) (product : Product) : ℚ :=
  if health_needs = [] then 1/2
  else ((health_needs.filter (fun need =>
    (product.tags.map pyLower ++ [pyLower product.name, pyLower product.description]).any
      (fun t => pyIn (pyLower need) t))).length : ℚ) / (health_needs.length : ℚ)

/-! ## Result optimizer (`BalancedRecommendationEngine._optimize_results`) -/
/-- Python list slicing `l[:k]` including negative `k`
(`l[:k] = l[:len(l)+k]` when `k < 0`, empty when `len(l)+k ≤ 0`). -/
def pySliceTake {α : Type} (l : List α) (k : ℤ) : List α :=
  if 0 ≤ k then l.take k.toNat else l.take (l.length - (-k).toNat)

/-- The admission loop of `_optimize_results`: walk the candidates, adding
each product whose (lower-cased) brand occurs fewer than 2 times in the
accumulator so far. -/
def admitAux {α : Type} (brandOf : α → String) (acc : List α) : List α → List α
  | [] => acc
  | product :: rest =>
    let brand := pyLower (brandOf product)
    let brand_count := (acc.filter (fun q => pyLower (brandOf q) == brand)).length
    if brand_count < 2 then admitAux brandOf (acc ++ [product]) rest
    else admitAux brandOf acc rest

/-- Number of records in `l` whose lower-cased brand equals `k`. -/
def brand_count {α : Type} (brandOf : α → String) (l : List α) (k : String) : ℕ :=
  (l.filter (fun q => pyLower (brandOf q) == k)).length

/-- Models `BalancedRecommendationEngine._optimize_results`, polymorphic in the
scored-record type (the Python function is duck-typed; it reads
`p['score_breakdown']['health_condition_match']` — `healthOf` — and
`p.get('brand', '')` — `brandOf`).  `seen_brands` and `seen_categories`
are written but never read by the code and are omitted.  `int(n * 0.6)`
truncates toward zero; for nonnegative `n` this is the floor (the IEEE
product `n * 0.6` rounds to the same integer part for every list length). -/
def optimize_results {α : Type} (healthOf : α → ℚ) (brandOf : α → String)
    (scored_products : List α) : List α :=
  if scored_products.isEmpty then []
  else
    let health_products := scored_products.filter (fun p => 3/10 < healthOf p)
    let regular_products := scored_products.filter (fun p => healthOf p ≤ 3/10)
    let health_limit := max 6 (Int.toNat ⌊(scored_products.length : ℚ) * (6/10)⌋)
    let optimized := admitAux brandOf [] (health_products.take health_limit)
    let remaining_slots : ℤ := 10 - (optimized.length : ℤ)
    optimized ++ pySliceTake regular_products remaining_slots

/-! ## The scored/annotated product records and the full pipeline -/
/-- A scored product: a copy of the product record with the three
annotation keys the engine adds (`product.copy()` followed by assignment
of `recommendation_score`, `recommendation_reasons`, `score_breakdown`). -/
structure ScoredProduct where
  product : Product
  recommendation_score : ℚ
  score_breakdown : ScoreBreakdown
  recommendation_reasons : List String
deriving Repr, DecidableEq

/-- Accessor for `p['score_breakdown']['health_condition_match']`. -/
def healthOfScored (s : ScoredProduct) : ℚ := s.score_breakdown.health_condition_match

/-- Accessor for `p['recommendation_score']`. -/
def totalOfScored (s : ScoredProduct) : ℚ := s.recommendation_score

/-- Accessor for `p.get('brand', '')`. -/
def brandOfScored (s : ScoredProduct) : String := s.product.brand

/-- Stable descending insertion used to model
`scored_products.sort(key=lambda x: x['recommendation_score'], reverse=True)`.
(Python's Timsort is stable; a stable sort of a list under a total
preorder is unique as a function, so this computes the same list.) -/
def insertDescBy {α : Type} (key : α → ℚ) (x : α) : List α → List α
  | [] => [x]
  | y :: ys => if key x < key y then y :: insertDescBy key x ys else x :: y :: ys

/-- Stable descending sort by `key`. -/
def sortDescBy {α : Type} (key : α → ℚ) : List α → List α
  | [] => []
  | x :: xs => insertDescBy key x (sortDescBy key xs)

/-- Models `BalancedRecommendationEngine.generate_recommendations`: safety filter,
per-product scoring on copies, stable descending sort, diversity
optimization, final `[:limit]` slice. -/
def generate_recommendations (pet : PetProfile) (products : List Product)
    (limit : ℕ := 10) : List ScoredProduct :=
  let safe_products := filter_products_for_pet pet products
  if safe_products.isEmpty then []
  else
    let pet_analysis := analyze_pet_profile pet
    let scored_products := safe_products.map (fun product =>
      let score_data := calculate_balanced_score pet product pet_analysis
      { product := product,
        recommendation_score := score_data.total_score,
        score_breakdown := score_data.breakdown,
        recommendation_reasons := score_data.reasons : ScoredProduct })
    let sorted := sortDescBy totalOfScored scored_products
    (optimize_results healthOfScored brandOfScored sorted).take limit

/-! ### C6: output length of the optimization step -/
/-- A list of 19 scored products, every one health-relevant (health sub-score 0.4),
with 19 pairwise distinct brands, all sharing total score 0.5 (already
"sorted"). -/
def c6_scored_products : List ScoredProduct :=
  ["b01", "b02", "b03", "b04", "b05", "b06", "b07", "b08", "b09", "b10",
   "b11", "b12", "b13", "b14", "b15", "b16", "b17", "b18", "b19"].map
    (fun b => { product := { brand := b },
                recommendation_score := 1/2,
                score_breakdown := { health_condition_match := 2/5,
                                     safety_allergy_match := 0,
                                     general_compatibility := 0,
                                     quality_business := 0 },
                recommendation_reasons := [] })

/-! ## C9: the engine does not mutate its inputs (heap model)

Python mutation is made explicit: product records live in a heap (a list of
cells addressed by position), `product.copy()` allocates a fresh cell at
the end of the heap, and the three annotation assignments update only that
fresh cell.  `generate_recommendations` then returns the final heap
together with the references constituting the returned recommendation
list.  The frame property states that every pre-existing address still
holds its original record, and every returned reference points into the
freshly allocated region. -/
/-- A heap cell: a product record that may carry the three annotation keys
(`none` = key absent from the dict). -/
structure AnnProduct where
  prod : Product
  recommendation_score : Option ℚ := none
  score_breakdown : Option ScoreBreakdown := none
  recommendation_reasons : Option (List String) := none
deriving Repr, DecidableEq

/-- Models `product_copy = product.copy()` followed by the three annotation
assignments — a fresh record; the original cell is untouched. -/
def annotateCopy (pet : PetProfile) (analysis : PetAnalysis) (cell : AnnProduct) : AnnProduct :=
  let score_data := calculate_balanced_score pet cell.prod analysis
  { cell with recommendation_score := some score_data.total_score,
              score_breakdown := some score_data.breakdown,
              recommendation_reasons := some score_data.reasons }

/-- Models `generate_recommendations` as a heap transformer: returns the final
heap and the references of the returned recommendation list. -/
def generate_recommendations_heap (pet : PetProfile) (heap : List AnnProduct)
    (limit : ℕ) : List AnnProduct × List ℕ :=
  let safe_idx := (List.range heap.length).filter (fun i =>
    match heap[i]? with
    | some cell => is_product_safe_for_pet pet cell.prod
    | none => false)
  if safe_idx.isEmpty then (heap, [])
  else
    let pet_analysis := analyze_pet_profile pet
    -- the loop body allocates one annotated copy per safe product,
    -- in iteration order
    let copies := safe_idx.filterMap (fun i => (heap[i]?).map (annotateCopy pet pet_analysis))
    let new_heap := heap ++ copies
    -- `scored_products`: the references to the copies, in allocation order
    let refs := (List.range copies.length).map (fun j => heap.length + j)
    let score_of := fun r => match new_heap[r]? with
      | some cell => cell.recommendation_score.getD 0
      | none => 0
    let health_of := fun r => match new_heap[r]? with
      | some cell => (cell.score_breakdown.getD ⟨0, 0, 0, 0⟩).health_condition_match
      | none => 0
    let brand_of := fun r => match new_heap[r]? with
      | some cell => cell.prod.brand
      | none => ""
    let sorted := sortDescBy score_of refs
    let optimized := optimize_results health_of brand_of sorted
    (new_heap, optimized.take limit)

/-- The one-cell heap used by the C9 witness. -/
def c9_witness_heap : List AnnProduct := [{ prod := { pet_type := "Dog" } }]

/-! ## Tag generator (`app/services/ml_tag_generator.py`)

The generator is modelled at ASCII granularity (every trigger phrase and
every regular expression of the program is ASCII).  Regular expressions are
modelled by structurally recursive scanners with the same matching
semantics on the cleaned text domain the program applies them to. -/
/-- Python `str.startswith`. -/
def pyStartsWith (s pre : String) : Bool := startsWithChars pre.data s.data

/-- Models `re.sub(r'[,;:|/\\()[\]{}]', ' ', text)`: separator characters become
spaces (the two brace characters are written via their code points). -/
def sepToSpace (c : Char) : Char :=
  if [',', ';', ':', '|', '/', '\\', '(', ')', '[', ']',
      Char.ofNat 123, Char.ofNat 125].contains c then ' ' else c

/-- Models `re.sub(r'([a-z])-([a-z])', r'\1 \2', text)`: a hyphen between two
lower-case letters becomes a space; as in `re.sub`, scanning resumes after
the replaced region (so `"a-b-c"` becomes `"a b-c"`). -/
def deHyphen : List Char → List Char
  | a :: '-' :: b :: rest2 =>
    if a.isLower && b.isLower then a :: ' ' :: b :: deHyphen rest2
    else a :: deHyphen ('-' :: b :: rest2)
  | a :: rest => a :: deHyphen rest
  | [] => []

/-- Models `re.sub(r'\s+', ' ', text)`: collapse whitespace runs to one space. -/
def collapseWs : List Char → List Char
  | [] => []
  | [c] => [if c.isWhitespace then ' ' else c]
  | c :: d :: rest =>
    if c.isWhitespace && d.isWhitespace then collapseWs (d :: rest)
    else (if c.isWhitespace then ' ' else c) :: collapseWs (d :: rest)

/-- Models `MLTagGenerator._clean_text`: lower-case, separators to spaces,
de-hyphenate compounds, collapse whitespace, strip. -/
def clean_text (s : String) : String :=
  ⟨trimChars (collapseWs (deHyphen ((pyLower s).data.map sepToSpace)))⟩

/-- The class `\w` of Python `re` at ASCII granularity. -/
def isWordChar (c : Char) : Bool := c.isAlphanum || c == '_'

/-- The anchor `\b` of Python `re`: position `i` lies between a word char and a
non-word char (positions before index 0 and past the end are non-word). -/
def boundaryAt (text : List Char) (i : ℕ) : Bool :=
  let leftWord := if i == 0 then false else isWordChar (text.getD (i - 1) ' ')
  let rightWord := isWordChar (text.getD i ' ')
  leftWord != rightWord

/-- Test that `kw` occurs at position `i` of `text` with `\b` on both sides. -/
def matchWordAt (text kw : List Char) (i : ℕ) : Bool :=
  startsWithChars kw (text.drop i) && boundaryAt text i && boundaryAt text (i + kw.length)

/-- Models `re.search(r'\b' + re.escape(kw) + r'\b', text) is not None`. -/
def hasWordMatch (text kw : List Char) : Bool :=
  (List.range (text.length + 1)).any (fun i => matchWordAt text kw i)

/-- Models `MLTagGenerator._extract_keyword_tags` keyword test: the keyword
itself, the keyword with hyphens as spaces, and the keyword with hyphens
removed, each as a whole-word pattern. -/
def keywordHit (text : List Char) (kw : String) : Bool :=
  hasWordMatch text kw.data ||
  hasWordMatch text (kw.data.map (fun c => if c == '-' then ' ' else c)) ||
  hasWordMatch text (kw.data.filter (fun c => !(c == '-')))

/-- Models `MLTagGenerator._extract_keyword_tags`: emit every tag of the
dictionary one of whose trigger keywords matches (`match_count > 0`). -/
def extract_keyword_tags (text : List Char)
    (keyword_dict : List (String × List String)) : List String :=
  (keyword_dict.filter (fun kv => kv.2.any (fun kw => keywordHit text kw))).map (·.1)

/-- Models `MLTagGenerator._initialize_health_keywords` (dict insertion order). -/
def health_keywords : List (String × List String) :=
  [("joint-support",
    ["joint", "joints", "arthritis", "hip", "dysplasia", "mobility",
     "glucosamine", "chondroitin", "msm", "orthopedic", "cartilage",
     "stiffness", "inflammation", "bone-health"]),
   ("digestive-health",
    ["digestive", "digestion", "stomach", "gut", "intestinal", "probiotic",
     "prebiotic", "sensitive", "easy-digest", "fiber", "digestible",
     "gut-friendly", "stomach-friendly", "intestinal-health", "gut-health"]),
   ("skin-coat-health",
    ["skin", "coat", "fur", "dermatitis", "itchy", "shiny", "glossy",
     "omega", "fatty-acids", "dull", "dry-skin", "coat-shine",
     "healthy-skin", "skin-support", "coat-care"]),
   ("dental-care",
    ["dental", "teeth", "tooth", "oral", "tartar", "plaque", "breath",
     "gums", "chew", "cleaning", "oral-health", "dental-health",
     "teeth-cleaning", "fresh-breath"]),
   ("heart-health",
    ["heart", "cardiac", "cardiovascular", "taurine", "circulation",
     "blood-pressure", "cardio", "heart-support", "cardiovascular-health"]),
   ("kidney-support",
    ["kidney", "renal", "urinary", "bladder", "phosphorus", "uti",
     "urination", "nephritis", "kidney-health", "renal-support",
     "urinary-health", "bladder-health"]),
   ("liver-support",
    ["liver", "hepatic", "liver-health", "liver-care", "liver-support",
     "detox", "detoxification", "hepatic-support"]),
   ("immune-support",
    ["immune", "immunity", "antioxidant", "antioxidants", "vitamin-c",
     "vitamin-e", "defense", "resistance", "immune-system",
     "immune-boost", "immune-health"]),
   ("weight-management",
    ["weight", "diet", "light", "lean", "calorie", "calories", "fat",
     "obesity", "overweight", "slim", "reduction", "weight-control",
     "weight-loss", "low-calorie", "diet-formula"]),
   ("senior-care",
    ["senior", "elderly", "aged", "mature", "cognitive", "brain",
     "memory", "aging", "old", "senior-support", "mature-care",
     "aging-support", "cognitive-support"]),
   ("anxiety-relief",
    ["anxiety", "stress", "calm", "calming", "nervous", "relaxing",
     "soothing", "comfort", "fearful", "stress-relief", "calming-support",
     "anti-anxiety", "relaxation"]),
   ("allergy-relief",
    ["allergy", "allergies", "allergic", "hypoallergenic", "sensitive",
     "reaction", "intolerance", "allergy-friendly", "sensitivity-support"]),
   ("eye-health",
    ["eye", "eyes", "vision", "eye-health", "vision-support",
     "lutein", "beta-carotene", "eye-care"]),
   ("respiratory-health",
    ["respiratory", "breathing", "lungs", "airways", "respiratory-support",
     "lung-health", "breathing-support"])]

/-- Models `MLTagGenerator._initialize_nutrition_keywords`. -/
def nutrition_keywords : List (String × List String) :=
  [("high-protein",
    ["high-protein", "protein-rich", "meat-first", "real-meat",
     "protein", "muscle", "lean-muscle", "protein-packed"]),
   ("grain-free",
    ["grain-free", "gluten-free", "wheat-free", "corn-free",
     "no-grain", "no-gluten", "grain-less", "cereal-free"]),
   ("plant-based",
    ["plant-based", "vegan", "vegetarian", "plant-protein",
     "meat-free", "plant-derived", "botanical", "veggie",
     "plant-powered", "veg"]),
   ("organic",
    ["organic", "usda-organic", "certified-organic", "naturally-grown",
     "pesticide-free", "chemical-free", "bio-organic"]),
   ("natural",
    ["natural", "all-natural", "100%-natural", "wholesome", "pure",
     "clean", "minimally-processed", "nature-made"]),
   ("raw",
    ["raw", "freeze-dried", "dehydrated", "air-dried", "minimally-cooked",
     "uncooked", "fresh", "raw-diet", "fresh-frozen"]),
   ("limited-ingredient",
    ["limited-ingredient", "simple", "few-ingredients", "minimal",
     "single-protein", "novel-protein", "simple-recipe"]),
   ("superfood",
    ["superfood", "superfoods", "antioxidant-rich", "nutrient-dense",
     "blueberry", "cranberry", "chia", "quinoa", "nutrient-packed"]),
   ("multivitamin",
    ["multivitamin", "multi-vitamin", "vitamin", "vitamins", "mineral",
     "minerals", "supplement", "enriched", "fortified", "vitamin-enriched"]),
   ("omega-fatty-acids",
    ["omega-3", "omega-6", "fatty-acids", "fish-oil", "epa", "dha",
     "flaxseed", "salmon-oil", "healthy-fats"]),
   ("low-fat",
    ["low-fat", "reduced-fat", "fat-free", "lean", "light-fat"]),
   ("high-fiber",
    ["high-fiber", "fiber-rich", "dietary-fiber", "fiber", "fibrous"]),
   ("gluten-free",
    ["gluten-free", "gluten-less", "no-gluten", "celiac-friendly"]),
   ("preservative-free",
    ["preservative-free", "no-preservatives", "fresh-preserved",
     "naturally-preserved", "additive-free"])]

/-- Models `MLTagGenerator._initialize_quality_keywords`. -/
def quality_keywords : List (String × List String) :=
  [("vet-recommended",
    ["vet-recommended", "veterinarian", "veterinary", "vet-approved",
     "doctor-recommended", "clinical", "vet-formulated"]),
   ("human-grade",
    ["human-grade", "food-grade", "restaurant-quality", "kitchen-grade",
     "human-quality", "human-consumption", "food-safety"]),
   ("premium",
    ["premium", "super-premium", "high-quality", "superior", "gourmet",
     "luxury", "elite", "top-quality", "finest"]),
   ("therapeutic",
    ["therapeutic", "prescription", "medical", "clinical", "treatment",
     "therapy", "medicinal", "health-focused"]),
   ("made-in-usa",
    ["made-in-usa", "usa-made", "american-made", "manufactured-usa",
     "proudly-american", "domestically-made"]),
   ("no-artificial",
    ["no-artificial", "no-preservatives", "no-additives", "no-fillers",
     "artificial-free", "preservative-free", "additive-free",
     "chemical-free", "no-chemicals"]),
   ("tested",
    ["tested", "quality-tested", "lab-tested", "safety-tested",
     "third-party-tested", "verified", "certified-safe"]),
   ("non-gmo",
    ["non-gmo", "no-gmo", "gmo-free", "genetically-modified-free"]),
   ("sustainably-sourced",
    ["sustainable", "sustainably-sourced", "eco-friendly",
     "environmentally-friendly", "responsibly-sourced", "ethical"])]

/-- Models `MLTagGenerator._initialize_functional_keywords`. -/
def functional_keywords : List (String × List String) :=
  [("training",
    ["training", "reward", "treats", "motivation", "positive-reinforcement",
     "obedience", "behavioral", "training-aid"]),
   ("interactive",
    ["interactive", "puzzle", "mental-stimulation", "brain-game",
     "challenging", "enrichment", "smart", "puzzle-toy"]),
   ("durable",
    ["durable", "tough", "strong", "heavy-duty", "long-lasting",
     "indestructible", "chew-resistant", "robust", "sturdy"]),
   ("comfort",
    ["comfort", "cozy", "soft", "plush", "cushioned", "padded",
     "comfortable", "supportive", "cozy-comfort"]),
   ("waterproof",
    ["waterproof", "water-resistant", "washable", "easy-clean",
     "machine-washable", "stain-resistant", "water-repellent"]),
   ("cooling",
    ["cooling", "cool", "temperature-regulation", "gel", "breathable",
     "ventilated", "summer", "heat-relief", "temperature-control"]),
   ("heating",
    ["heated", "warming", "warm", "thermal", "heat", "winter",
     "cold", "heated-comfort", "warmth"]),
   ("portable",
    ["portable", "travel", "lightweight", "compact", "foldable",
     "on-the-go", "mobile", "travel-friendly"]),
   ("hydrating",
    ["hydrating", "moisture", "wet", "hydration", "moisture-rich",
     "high-moisture", "water-content"]),
   ("easy-digest",
    ["easy-digest", "easily-digestible", "gentle", "mild",
     "stomach-friendly", "digestible", "easy-on-stomach"])]

/-- Models `MLTagGenerator._initialize_texture_form_keywords`. -/
def texture_form_keywords : List (String × List String) :=
  [("wet-food",
    ["wet", "moist", "gravy", "sauce", "pate", "chunks",
     "wet-food", "canned", "pouch"]),
   ("dry-food",
    ["dry", "kibble", "biscuits", "pellets", "dry-food", "crunchy"]),
   ("soft-food",
    ["soft", "tender", "chewy", "semi-moist", "soft-bites"]),
   ("treat-form",
    ["treats", "snacks", "bites", "chews", "strips", "sticks"])]

/-- Models `MLTagGenerator._initialize_age_specific_keywords`. -/
def age_specific_keywords : List (String × List String) :=
  [("puppy-formula",
    ["puppy", "growth", "development", "young", "junior",
     "puppy-formula", "growth-formula"]),
   ("kitten-formula",
    ["kitten", "growth", "development", "young", "junior",
     "kitten-formula", "growth-formula"]),
   ("adult-formula",
    ["adult", "maintenance", "adult-formula", "everyday"]),
   ("senior-formula",
    ["senior", "mature", "aged", "elderly", "senior-formula",
     "mature-formula", "7+", "senior-care"])]

/-- Models `MLTagGenerator._initialize_condition_keywords`. -/
def condition_keywords : List (String × List String) :=
  [("diabetes-friendly",
    ["diabetes", "diabetic", "blood-sugar", "glucose", "low-sugar"]),
   ("kidney-disease",
    ["kidney-disease", "renal-disease", "ckd", "chronic-kidney"]),
   ("heart-disease",
    ["heart-disease", "cardiac-disease", "heart-condition"]),
   ("food-allergies",
    ["food-allergies", "food-sensitivities", "allergic-reactions"]),
   ("obesity",
    ["obesity", "overweight", "weight-issues", "fat-reduction"])]

/-- Models `MLTagGenerator._initialize_ingredient_keywords`. -/
def ingredient_keywords : List (String × List String) :=
  [("chicken", ["chicken", "poultry", "fowl", "chicken-meal"]),
   ("beef", ["beef", "bovine", "cow", "beef-meal"]),
   ("lamb", ["lamb", "sheep", "mutton", "lamb-meal"]),
   ("fish", ["fish", "salmon", "tuna", "cod", "whitefish", "seafood", "fish-meal"]),
   ("duck", ["duck", "duck-meal"]),
   ("turkey", ["turkey", "turkey-meal"]),
   ("venison", ["venison", "deer"]),
   ("pork", ["pork", "pig", "swine"]),
   ("sweet-potato", ["sweet-potato", "sweet-potatoes", "yam"]),
   ("rice", ["rice", "brown-rice", "white-rice"]),
   ("potato", ["potato", "potatoes"]),
   ("peas", ["pea", "peas", "green-peas"]),
   ("chickpeas", ["chickpea", "chickpeas", "garbanzo"]),
   ("lentils", ["lentil", "lentils"]),
   ("carrots", ["carrot", "carrots"]),
   ("pumpkin", ["pumpkin"]),
   ("blueberries", ["blueberry", "blueberries"]),
   ("cranberries", ["cranberry", "cranberries"]),
   ("spinach", ["spinach"]),
   ("kale", ["kale"]),
   ("oats", ["oat", "oats", "oatmeal"]),
   ("barley", ["barley"]),
   ("quinoa", ["quinoa"]),
   ("chia-seeds", ["chia", "chia-seeds"]),
   ("flaxseed", ["flax", "flaxseed", "linseed"]),
   ("sunflower-oil", ["sunflower-oil", "sunflower"]),
   ("coconut-oil", ["coconut-oil", "coconut"]),
   ("probiotics", ["probiotics", "lactobacillus", "bifidobacterium"]),
   ("prebiotics", ["prebiotics", "fos", "inulin"])]

/-- Models `MLTagGenerator._initialize_stopwords`. -/
def stopwords_list : List String :=
  ["the", "and", "or", "but", "in", "on", "at", "to", "for", "of", "with",
   "by", "from", "about", "into", "through", "during", "before", "after",
   "above", "below", "up", "down", "out", "off", "over", "under", "again",
   "further", "then", "once", "here", "there", "when", "where", "why",
   "how", "all", "any", "both", "each", "few", "more", "most", "other",
   "some", "such", "no", "nor", "not", "only", "own", "same", "so",
   "than", "too", "very", "can", "will", "just", "should", "now", "pet",
   "pets", "animal", "animals", "product", "products", "item", "items",
   "pack", "size", "brand", "flavour", "description", "information"]

/-- Models `MLTagGenerator._extract_comprehensive_text`: join the non-empty text
parts, in source order, with single spaces. -/
def extract_comprehensive_text (p : Product) : String :=
  let text_parts := [p.name, p.description, p.product_type, p.sub_category] ++
    p.age_group ++ p.breed_size ++ p.ingredients ++
    p.safety.allergens ++ [p.safety.age_restrictions] ++
    [p.nutrition.diet_type, p.nutrition.ingredient_claims, p.nutrition.nutrient_claims] ++
    p.metadata.specific_uses ++ [p.metadata.item_form]
  String.intercalate " " (text_parts.filter (fun part => part != ""))

/-- The protein source tags counted by the ingredient pass. -/
def protein_sources : List String :=
  ["chicken", "beef", "lamb", "fish", "duck", "turkey"]

/-- Models `MLTagGenerator._extract_enhanced_ingredient_tags`: plain substring
matching of the ingredient taxonomy against the joined lower-cased
ingredient list, plus `limited-ingredient` for ≤ 5 ingredients and the
protein-count tags.  Empty ingredient lists return nothing at all. -/
def extract_enhanced_ingredient_tags (p : Product) : List String :=
  if p.ingredients.isEmpty then []
  else
    let ingredient_text := pyLower (String.intercalate " " p.ingredients)
    let found := (ingredient_keywords.filter (fun kv =>
      kv.2.any (fun kw => pyIn (pyLower kw) ingredient_text))).map (·.1)
    let protein_count := (protein_sources.filter (fun pr => found.contains pr)).length
    found ++ (if p.ingredients.length ≤ 5 then ["limited-ingredient"] else []) ++
    (if 2 ≤ protein_count then ["multi-protein"]
     else if protein_count == 1 then ["single-protein"] else [])

/-- Models `MLTagGenerator._extract_enhanced_pattern_tags`: each regex is a
word-bounded alternation; `\s*` matches one space or nothing and `\s+`
exactly one space on the cleaned-text domain (whitespace runs are already
collapsed). -/
def extract_enhanced_pattern_tags (text : List Char) : List String :=
  (if ["non gmo", "nongmo", "no gmo", "nogmo", "gmo free", "gmofree"].any
      (fun v => hasWordMatch text v.data) then ["non-gmo"] else []) ++
  (if ["no artificial", "no preservatives", "no additives", "no fillers",
       "no chemicals"].any (fun v => hasWordMatch text v.data)
   then ["no-artificial"] else []) ++
  (if ["bpa free", "bpafree", "bpa-free"].any (fun v => hasWordMatch text v.data)
   then ["bpa-free"] else []) ++
  (if ["limited ingredient", "single protein", "novel protein"].any
      (fun v => hasWordMatch text v.data) then ["limited-ingredient"] else []) ++
  (if ["freeze dried", "freezedried", "air dried", "airdried", "dehydrated"].any
      (fun v => hasWordMatch text v.data) then ["freeze-dried"] else []) ++
  (if ["slow cooked", "slowcooked", "gently cooked", "gentlycooked",
       "low temperature", "lowtemperature"].any (fun v => hasWordMatch text v.data)
   then ["slow-cooked"] else []) ++
  (if ["usda organic", "usdaorganic", "certified organic", "certifiedorganic"].any
      (fun v => hasWordMatch text v.data) then ["certified-organic"] else []) ++
  (if ["raw diet", "rawdiet", "barf diet", "barfdiet"].any
      (fun v => hasWordMatch text v.data) then ["raw-diet"] else [])

/-- Numeric value of a digit run. -/
def digitsToNat (l : List Char) : ℕ :=
  l.foldl (fun acc c => 10 * acc + (c.toNat - 48)) 0

/-- Models `re.search(r'(\d+)%?\s*(LIT₁|LIT₂|…)', text)`: first position carrying
a digit run followed by an optional `%`, optional whitespace, and one of
the literals; returns the run's value.  (Shorter backtracked runs cannot
match because the following character would be a digit.) -/
def findNumBeforeAux (lits : List (List Char)) : List Char → Option ℕ
  | [] => none
  | c :: rest =>
    if c.isDigit then
      let run := (c :: rest).takeWhile Char.isDigit
      let after := (c :: rest).dropWhile Char.isDigit
      let after2 := match after with
        | '%' :: t => t
        | _ => after
      let after3 := after2.dropWhile Char.isWhitespace
      if lits.any (fun lit => startsWithChars lit after3) then some (digitsToNat run)
      else findNumBeforeAux lits rest
    else findNumBeforeAux lits rest

/-- Models `re.search(r'LIT[:\s]*(\d+)%?', text)`: first occurrence of the
literal followed (after colons/whitespace) by a digit run. -/
def findNumAfterAux (lit : List Char) : List Char → Option ℕ
  | [] => none
  | c :: rest =>
    if startsWithChars lit (c :: rest) then
      let after := (c :: rest).drop lit.length
      let after2 := after.dropWhile (fun ch => ch == ':' || ch.isWhitespace)
      let run := after2.takeWhile Char.isDigit
      if run.isEmpty then findNumAfterAux lit rest else some (digitsToNat run)
    else findNumAfterAux lit rest

/-- Models `re.search(r'(\d+)%?\s*crude\s*LIT', text)`. -/
def findNumCrudeAux (lit : List Char) : List Char → Option ℕ
  | [] => none
  | c :: rest =>
    if c.isDigit then
      let run := (c :: rest).takeWhile Char.isDigit
      let after := (c :: rest).dropWhile Char.isDigit
      let after2 := match after with
        | '%' :: t => t
        | _ => after
      let after3 := after2.dropWhile Char.isWhitespace
      if startsWithChars "crude".data after3 then
        let after4 := (after3.drop 5).dropWhile Char.isWhitespace
        if startsWithChars lit after4 then some (digitsToNat run)
        else findNumCrudeAux lit rest
      else findNumCrudeAux lit rest
    else findNumCrudeAux lit rest

/-- Models `MLTagGenerator._extract_numeric_tags`: the first matching pattern per
nutrient wins (`break`), then the value is bucketed. -/
def extract_numeric_tags (text : List Char) : List String :=
  let protein_val := match findNumBeforeAux ["protein".data] text with
    | some v => some v
    | none => match findNumAfterAux "protein".data text with
      | some v => some v
      | none => findNumCrudeAux "protein".data text
  let fat_val := match findNumBeforeAux ["fat".data] text with
    | some v => some v
    | none => match findNumAfterAux "fat".data text with
      | some v => some v
      | none => findNumCrudeAux "fat".data text
  let moisture_val := findNumBeforeAux ["moisture".data] text
  let fiber_val := findNumBeforeAux ["fiber".data, "fibre".data] text
  (match protein_val with
   | some v => if 35 ≤ v then ["very-high-protein"]
     else if 25 ≤ v then ["high-protein"]
     else if 18 ≤ v then ["moderate-protein"] else []
   | none => []) ++
  (match fat_val with
   | some v => if v ≤ 5 then ["very-low-fat"]
     else if v ≤ 10 then ["low-fat"]
     else if 18 ≤ v then ["high-fat"] else []
   | none => []) ++
  (match moisture_val with
   | some v => if 75 ≤ v then ["high-moisture"]
     else if v ≤ 12 then ["dry-food"] else []
   | none => []) ++
  (match fiber_val with
   | some v => if 8 ≤ v then ["high-fiber"]
     else if v ≤ 3 then ["low-fiber"] else []
   | none => [])

/-- Replace spaces by hyphens (Python `str.replace(' ', '-')`). -/
def spaceToHyphen (s : String) : String :=
  ⟨s.data.map (fun c => if c == ' ' then '-' else c)⟩

/-- Models `MLTagGenerator._extract_enhanced_essential_tags`. -/
def extract_enhanced_essential_tags (p : Product) : List String :=
  (if pyStrip (pyLower p.pet_type) == "" then []
   else [pyStrip (pyLower p.pet_type)]) ++
  (let sub_cat := pyStrip (pyLower p.sub_category)
   if sub_cat != "" && !(["food", "treats", "toys", "accessories"].contains sub_cat)
   then [spaceToHyphen sub_cat] else []) ++
  (p.age_group.filterMap (fun age =>
    let age_clean := pyStrip (pyLower age)
    if ["puppy", "kitten", "senior", "adult", "junior"].contains age_clean
    then some age_clean else none)) ++
  (if !p.breed_size.isEmpty &&
      !(p.breed_size.any (fun sz => pyIn "all" (pyLower sz))) then
    let specific_sizes := pySetList (p.breed_size.filterMap (fun sz =>
      let size_clean := pyStrip (pyLower sz)
      if pyIn "small" size_clean || pyIn "toy" size_clean then some "small-breed"
      else if pyIn "large" size_clean then some "large-breed"
      else if pyIn "medium" size_clean then some "medium-breed"
      else if pyIn "giant" size_clean then some "giant-breed"
      else none))
    if specific_sizes.length ≤ 2 then specific_sizes else []
   else [])

/-- Models `MLTagGenerator._extract_context_tags`. -/
def extract_context_tags (p : Product) (text : List Char) : List String :=
  let category := pyLower p.category
  let t : String := ⟨text⟩
  (if pyIn "food" category then
    (if pyIn "complete" t || pyIn "balanced" t then ["complete-nutrition"] else []) ++
    (if pyIn "daily" t || pyIn "everyday" t then ["daily-feeding"] else []) ++
    (if pyIn "meal" t then ["main-meal"] else [])
   else if pyIn "treat" category then
    (if pyIn "training" t || pyIn "reward" t then ["training-treats"] else []) ++
    (if pyIn "healthy" t then ["healthy-treats"] else [])
   else if pyIn "toy" category then
    (if pyIn "mental" t || pyIn "brain" t then ["mental-enrichment"] else []) ++
    (if pyIn "exercise" t || pyIn "active" t then ["physical-exercise"] else [])
   else []) ++
  (if pyIn "small" t && pyIn "breed" t then ["small-dog-friendly"]
   else if pyIn "large" t && pyIn "breed" t then ["large-dog-friendly"] else [])

/-- The clean step of `_finalize_enhanced_tags`:
`re.sub(r'[^a-zA-Z0-9\-]', '', tag.strip().lower())`. -/
def cleanTag (tag : String) : String :=
  ⟨(pyLower (pyStrip tag)).data.filter (fun c => c.isAlpha || c.isDigit || c == '-')⟩

/-- The explicit exclusion set of `_finalize_enhanced_tags`. -/
def excluded_tags_list : List String :=
  ["100-percent", "all-breed-sizes", "all-life-stages", "all-ages",
   "any-size", "universal", "complete", "balanced", "everyday",
   "regular", "standard", "normal", "basic", "general", "common",
   "typical", "usual", "ordinary", "simple", "plain", "traditional",
   "good", "great", "best", "perfect", "ideal", "ultimate",
   "food", "treats", "toys", "accessories", "grooming", "bed"]

/-- The noisy-ingredient tags dropped on complex formulas. -/
def special_ingredient_tags : List String := ["potato", "peas", "carrots", "rice"]

/-- The dedup-and-filter loop of `_finalize_enhanced_tags`. -/
def finalize_clean_loop (p : Product) (seen : List String) : List String → List String
  | [] => []
  | tag :: rest =>
    if tag == "" then finalize_clean_loop p seen rest
    else
      let clean_tag := cleanTag tag
      if clean_tag.data.length < 2 || seen.contains clean_tag then
        finalize_clean_loop p seen rest
      else if stopwords_list.contains clean_tag ||
          excluded_tags_list.contains clean_tag then
        finalize_clean_loop p seen rest
      else if special_ingredient_tags.contains clean_tag &&
          decide (8 < p.ingredients.length) then
        finalize_clean_loop p seen rest
      else clean_tag :: finalize_clean_loop p (clean_tag :: seen) rest

/-- Tier-1 name starts (`tier1_prefixes` of the code). -/
def tier1_starts : List String :=
  ["joint", "digestive", "skin", "dental", "heart", "kidney", "liver"]

/-- Models `tier2_prefixes`. -/
def tier2_starts : List String := ["anxiety", "allergy", "weight", "senior", "immune"]

/-- Models `tier3_prefixes`. -/
def tier3_starts : List String :=
  ["high-protein", "grain-free", "plant-based", "organic", "natural"]

/-- Models `tier4_prefixes`. -/
def tier4_starts : List String := ["vet", "therapeutic", "human-grade", "premium"]

/-- The tier a cleaned tag is assigned to by the `elif` chain. -/
def tierOf (tag : String) : ℕ :=
  if tier1_starts.any (fun pre => pyStartsWith tag pre) then 1
  else if tier2_starts.any (fun pre => pyStartsWith tag pre) then 2
  else if tier3_starts.any (fun pre => pyStartsWith tag pre) then 3
  else if tier4_starts.any (fun pre => pyStartsWith tag pre) then 4
  else 5

/-- Models `MLTagGenerator._finalize_enhanced_tags`: clean/dedup, bucket by tier
(priority order), concatenate, truncate to 25. -/
def finalize_enhanced_tags (tags : List String) (p : Product) : List String :=
  let cleaned_tags := finalize_clean_loop p [] tags
  (cleaned_tags.filter (fun t => tierOf t == 1) ++
   cleaned_tags.filter (fun t => tierOf t == 2) ++
   cleaned_tags.filter (fun t => tierOf t == 3) ++
   cleaned_tags.filter (fun t => tierOf t == 4) ++
   cleaned_tags.filter (fun t => tierOf t == 5)).take 25

/-- Models `MLTagGenerator._get_basic_tags_fallback`. -/
def get_basic_tags_fallback (p : Product) : List String :=
  (if p.pet_type == "" then [] else [pyLower p.pet_type]) ++
  (if p.category == "" then [] else [pyLower p.category]) ++
  (if p.sub_category != "" && !(pyLower p.sub_category == pyLower p.category)
   then [spaceToHyphen (pyLower p.sub_category)] else [])

/-- The canonical enumeration of the extracted tag set
(`extracted_tags` in `generate_tags`, before `list(...)`), given as a
duplicate-free list in pass order.  The Python value is a `set`; its
contents — not its order — are determined by the item. -/
def extracted_tags_list (p : Product) : List String :=
  let text := (clean_text (extract_comprehensive_text p)).data
  pySetList (
    extract_keyword_tags text health_keywords ++
    extract_keyword_tags text nutrition_keywords ++
    extract_keyword_tags text quality_keywords ++
    extract_keyword_tags text functional_keywords ++
    extract_keyword_tags text texture_form_keywords ++
    extract_keyword_tags text age_specific_keywords ++
    extract_keyword_tags text condition_keywords ++
    extract_enhanced_ingredient_tags p ++
    extract_enhanced_pattern_tags text ++
    extract_numeric_tags text ++
    extract_enhanced_essential_tags p ++
    extract_context_tags p text)

/-- Models `if not all_text.strip(): return fallback`. -/
def text_is_blank (p : Product) : Bool := pyStrip (extract_comprehensive_text p) == ""

/-- One run of `MLTagGenerator.generate_tags`, parameterized by the
enumeration order `enum` in which CPython's `list(extracted_tags)` lists
the extracted tag set (that order depends on the per-process string-hash
seed; a run is modelled by any permutation of `extracted_tags_list`). -/
def generate_tags_run (p : Product) (enum : List String) : List String :=
  if text_is_blank p then get_basic_tags_fallback p
  else finalize_enhanced_tags enum p

/-! ### Lemmas about the finalize loop -/
/-- The conditions (other than the dedup against `seen`) under which the
finalize loop keeps a cleaned tag. -/
def keepTag (p : Product) (x : String) : Bool :=
  !(decide (x.data.length < 2)) &&
  (!(stopwords_list.contains x || excluded_tags_list.contains x)) &&
  (!(special_ingredient_tags.contains x && decide (8 < p.ingredients.length)))

/-! ### C5: shape of the returned tag list -/
/-- A product whose only populated fields are `pet_type` and `category`
(both `"dog"`): it has no extractable text at all. -/
def c5_item : Product := { pet_type := "dog", category := "dog" }

/-- An item whose name is `"joint dental"` and nothing else: its extracted
tag set is exactly `{joint-support, dental-care}`, both tier-1 tags. -/
def nonblank_item : Product := { name := "joint dental" }

/-! ## Theorems -/

/-! ## Claims C1, C2, C10: the safety gate -/
/-- C1: for every profile and item, if some profile allergy (lower-cased,
trimmed) occurs as a substring of the (lower-cased, trimmed) text of some
item ingredient or of some item tag, then `is_product_safe_for_pet` returns
`false`. -/
theorem c1_allergy_substring_rejects (pet : PetProfile) (product : Product)
    (h : ∃ al ∈ pet.known_allergies,
      (∃ ing ∈ product.ingredients,
        pyIn (pyStrip (pyLower al)) (pyStrip (pyLower ing)) = true) ∨
      (∃ tg ∈ product.tags,
        pyIn (pyStrip (pyLower al)) (pyStrip (pyLower tg)) = true)) :
    is_product_safe_for_pet pet product = false := by
  obtain ⟨al, hal, hcase⟩ := h
  have hall : check_allergies pet product = false := by
    unfold check_allergies
    have hne : (pet.known_allergies.map (fun a => pyStrip (pyLower a))).isEmpty = false := by
      cases hk : pet.known_allergies with
      | nil => exact absurd (hk ▸ hal) (List.not_mem_nil al)
      | cons a t => simp [hk]
    rw [if_neg (by simp_all)]
    rcases hcase with ⟨ing, hing, hhit⟩ | ⟨tg, htg, hhit⟩
    · rw [if_pos]
      refine List.any_eq_true.2 ⟨ing, hing, List.any_eq_true.2 ⟨pyStrip (pyLower al), ?_, hhit⟩⟩
      exact List.mem_map.2 ⟨al, hal, rfl⟩
    · by_cases hi : product.ingredients.any
        (fun ing => (pet.known_allergies.map (fun a => pyStrip (pyLower a))).any
          (fun a => pyIn a (pyStrip (pyLower ing)))) = true
      · rw [if_pos hi]
      · rw [if_neg hi, if_pos]
        refine List.any_eq_true.2 ⟨tg, htg, List.any_eq_true.2 ⟨pyStrip (pyLower al), ?_, hhit⟩⟩
        exact List.mem_map.2 ⟨al, hal, rfl⟩
  unfold is_product_safe_for_pet
  rw [hall]
  simp

/-- Witness for C1: a pet allergic to `"chicken"` and a product whose
ingredient list contains `"Chicken Meal"` is rejected by the gate. -/
theorem c1_allergy_substring_rejects_witness :
    is_product_safe_for_pet { known_allergies := ["chicken"] }
      { ingredients := ["Chicken Meal", "Rice"] } = false := by
  apply c1_allergy_substring_rejects
  refine ⟨"chicken", by simp, Or.inl ⟨"Chicken Meal", by simp, by decide⟩⟩

/-- C2: if the item declares a non-empty `age_groups` restriction list and
the profile's age group matches none of its entries case-insensitively,
the item is rejected; if the item declares no restriction, the age check
passes. -/
theorem c2_age_restriction_gate (pet : PetProfile) (product : Product) :
    (product.age_groups ≠ [] →
      (∀ a ∈ product.age_groups, pyLower a ≠ pyLower pet.age_group) →
      is_product_safe_for_pet pet product = false)
    ∧ (product.age_groups = [] → check_age_compatibility pet product = true) := by
  constructor
  · intro hne hall
    have hage : check_age_compatibility pet product = false := by
      unfold check_age_compatibility
      rw [if_neg (by simp [List.isEmpty_iff, hne])]
      simp only [List.any_eq_false]
      intro a ha
      simpa using hall a ha
    unfold is_product_safe_for_pet
    rw [hage]
    simp
  · intro hnil
    unfold check_age_compatibility
    rw [if_pos (by simp [hnil])]

/-- Witness for C2: a senior-only product is rejected for a puppy, and a
product with no age restriction passes the age check. -/
theorem c2_age_restriction_gate_witness :
    is_product_safe_for_pet { age_group := "Puppy" } { age_groups := ["Senior"] } = false
    ∧ check_age_compatibility { age_group := "Puppy" } { age_groups := [] } = true := by
  constructor
  · exact (c2_age_restriction_gate { age_group := "Puppy" } { age_groups := ["Senior"] }).1
      (by decide) (by decide)
  · exact (c2_age_restriction_gate { age_group := "Puppy" } { age_groups := [] }).2 rfl

/-! ### Bounds of the four sub-scores (shared lemmas) -/
theorem health_score_mem (hn : List String) (p : Product) :
    0 ≤ (calculate_health_condition_score hn p).1 ∧
    (calculate_health_condition_score hn p).1 ≤ 1 := by
  unfold calculate_health_condition_score
  by_cases h : hn.isEmpty <;> simp only [h, if_true, if_false, Bool.false_eq_true]
  · norm_num
  · exact ⟨le_min (by positivity) zero_le_one, min_le_right _ _⟩

theorem safety_score_mem (pet : PetProfile) (sr : List String) (p : Product) :
    0 ≤ (calculate_safety_allergy_score pet sr p).1 ∧
    (calculate_safety_allergy_score pet sr p).1 ≤ 1 := by
  unfold calculate_safety_allergy_score
  refine ⟨le_min ?_ zero_le_one, min_le_right _ _⟩
  dsimp only
  have hmin : (0:ℚ) ≤ min ((((sr.filter (fun requirement =>
      (p.tags.map pyLower).any (fun tag => pyIn (pyLower requirement) tag) ||
        pyIn (pyLower requirement) (pyLower p.name))).length : ℚ) / (sr.length : ℚ)) * (1/10))
      (1/10) := le_min (by positivity) (by norm_num)
  split_ifs <;> linarith [hmin]

theorem compat_score_mem (pet : PetProfile) (analysis : PetAnalysis) (p : Product) :
    0 ≤ (calculate_general_compatibility_score pet analysis p).1 ∧
    (calculate_general_compatibility_score pet analysis p).1 ≤ 1 := by
  unfold calculate_general_compatibility_score
  refine ⟨le_min ?_ zero_le_one, min_le_right _ _⟩
  dsimp only
  split_ifs <;> norm_num <;> positivity

theorem quality_score_mem (p : Product) :
    0 ≤ calculate_quality_business_score p ∧ calculate_quality_business_score p ≤ 1 := by
  unfold calculate_quality_business_score
  refine ⟨le_min ?_ zero_le_one, min_le_right _ _⟩
  dsimp only
  have h1 : (0:ℚ) ≤ if 0 < p.business_data.avg_rating then
      p.business_data.avg_rating / 5 * (1/2) else 0 := by
    split_ifs with h
    · positivity
    · exact le_refl 0
  have h2 : (0:ℚ) ≤ if 10 ≤ p.business_data.total_reviews then 1/5
      else if 5 ≤ p.business_data.total_reviews then 1/10 else 0 := by
    split_ifs <;> norm_num
  have h3 : (0:ℚ) ≤ if 0 < p.business_data.popularity_score then
      min (p.business_data.popularity_score / 100) (3/10) else 0 := by
    split_ifs with h
    · exact le_min (by positivity) (by norm_num)
    · exact le_refl 0
  have h4 : (0:ℚ) ≤ if p.business_data.is_premium = true then 1/10 else 0 := by
    split_ifs <;> norm_num
  have h5 : (0:ℚ) ≤ if (trusted_brands.any (fun t => pyIn t (pyLower p.brand))) = true
      then 1/10 else 0 := by
    split_ifs <;> norm_num
  exact add_nonneg (add_nonneg (add_nonneg (add_nonneg h1 h2) h3) h4) h5

/-! ### Rounding -/
theorem le_pyRoundHalfEven (q : ℚ) (n : ℤ) (h : (n : ℚ) ≤ q) : n ≤ pyRoundHalfEven q := by
  unfold pyRoundHalfEven
  have hf : n ≤ ⌊q⌋ := Int.le_floor.2 h
  dsimp only
  split_ifs <;> omega

theorem pyRoundHalfEven_le (q : ℚ) (n : ℤ) (h : q ≤ (n : ℚ)) : pyRoundHalfEven q ≤ n := by
  unfold pyRoundHalfEven
  have hf : ⌊q⌋ ≤ n := by
    have := Int.floor_le_floor h
    simpa using this
  dsimp only
  split_ifs with h1 h2 h3
  · exact hf
  all_goals {
    have hq : (⌊q⌋ : ℚ) + 1/2 ≤ q := by
      have := Int.floor_le q
      push_neg at h1
      linarith [h1]
    have hlt : (⌊q⌋ : ℚ) < (n : ℚ) := by linarith
    have : ⌊q⌋ < n := by exact_mod_cast hlt
    omega }

theorem round3_mem (q : ℚ) (h0 : 0 ≤ q) (h1 : q ≤ 1) : 0 ≤ round3 q ∧ round3 q ≤ 1 := by
  unfold round3
  have hlo : (0:ℤ) ≤ pyRoundHalfEven (q * 1000) :=
    le_pyRoundHalfEven _ 0 (by push_cast; linarith)
  have hhi : pyRoundHalfEven (q * 1000) ≤ 1000 :=
    pyRoundHalfEven_le _ 1000 (by push_cast; linarith)
  constructor
  · apply div_nonneg _ (by norm_num)
    exact_mod_cast hlo
  · rw [div_le_one (by norm_num)]
    exact_mod_cast hhi

/-- C3: each of the four sub-scores lies in `[0,1]`, the four fixed weights
(0.35, 0.30, 0.25, 0.10) sum exactly to 1, and the total (the weighted sum
rounded to 3 decimals) lies in `[0,1]`. -/
theorem c3_score_bounds (pet : PetProfile) (product : Product) (analysis : PetAnalysis) :
    (0 ≤ (calculate_balanced_score pet product analysis).breakdown.health_condition_match ∧
      (calculate_balanced_score pet product analysis).breakdown.health_condition_match ≤ 1) ∧
    (0 ≤ (calculate_balanced_score pet product analysis).breakdown.safety_allergy_match ∧
      (calculate_balanced_score pet product analysis).breakdown.safety_allergy_match ≤ 1) ∧
    (0 ≤ (calculate_balanced_score pet product analysis).breakdown.general_compatibility ∧
      (calculate_balanced_score pet product analysis).breakdown.general_compatibility ≤ 1) ∧
    (0 ≤ (calculate_balanced_score pet product analysis).breakdown.quality_business ∧
      (calculate_balanced_score pet product analysis).breakdown.quality_business ≤ 1) ∧
    weight_health + weight_safety + weight_compat + weight_quality = 1 ∧
    (0 ≤ (calculate_balanced_score pet product analysis).total_score ∧
      (calculate_balanced_score pet product analysis).total_score ≤ 1) := by
  have hh := health_score_mem analysis.health_needs product
  have hs := safety_score_mem pet analysis.safety_requirements product
  have hc := compat_score_mem pet analysis product
  have hq := quality_score_mem product
  have hw : weight_health + weight_safety + weight_compat + weight_quality = 1 := by
    unfold weight_health weight_safety weight_compat weight_quality; norm_num
  have htot : 0 ≤ (calculate_health_condition_score analysis.health_needs product).1 *
        weight_health +
      (calculate_safety_allergy_score pet analysis.safety_requirements product).1 *
        weight_safety +
      (calculate_general_compatibility_score pet analysis product).1 * weight_compat +
      calculate_quality_business_score product * weight_quality ∧
      (calculate_health_condition_score analysis.health_needs product).1 * weight_health +
      (calculate_safety_allergy_score pet analysis.safety_requirements product).1 *
        weight_safety +
      (calculate_general_compatibility_score pet analysis product).1 * weight_compat +
      calculate_quality_business_score product * weight_quality ≤ 1 := by
    unfold weight_health weight_safety weight_compat weight_quality
    constructor <;> nlinarith [hh.1, hh.2, hs.1, hs.2, hc.1, hc.2, hq.1, hq.2]
  refine ⟨hh, hs, hc, hq, hw, ?_⟩
  exact round3_mem _ htot.1 htot.2

/-- C8: the implemented health sub-score equals the spec's fraction (in
particular the `min(·, 1.0)` cap of the code is redundant), and the empty
needs list yields exactly 0.5 — the guard returns before the division, so
no division by zero arises. -/
theorem c8_health_score_fraction (hn : List String) (p : Product) :
    (calculate_health_condition_score hn p).1 = spec_health_fraction hn p ∧
    (hn = [] → (calculate_health_condition_score hn p).1 = 1/2) := by
  have hmain : (calculate_health_condition_score hn p).1 = spec_health_fraction hn p := by
    unfold calculate_health_condition_score spec_health_fraction
    by_cases h : hn = []
    · simp [h]
    · have hne : hn.isEmpty = false := by simp [List.isEmpty_iff, h]
      simp only [hne, Bool.false_eq_true, if_false, h]
      apply min_eq_left
      rw [div_le_one]
      · exact_mod_cast List.length_filter_le _ _
      · have : 0 < hn.length := List.length_pos.2 h
        exact_mod_cast this
  exact ⟨hmain, fun h => by rw [hmain, spec_health_fraction, if_pos h]⟩

/-- Witness for C8's empty-needs conjunct: the empty needs list on the
empty product scores exactly 0.5. -/
theorem c8_health_score_fraction_witness :
    (calculate_health_condition_score [] {}).1 = 1/2 :=
  (c8_health_score_fraction [] {}).2 rfl

/-! ### Structure of the admission loop -/
theorem admitAux_eq_append {α : Type} (brandOf : α → String) (acc l : List α) :
    ∃ ex, admitAux brandOf acc l = acc ++ ex ∧ ex.Sublist l := by
  induction l generalizing acc with
  | nil => exact ⟨[], by simp [admitAux], List.nil_sublist _⟩
  | cons p rest ih =>
    unfold admitAux
    dsimp only
    split_ifs with h
    · obtain ⟨ex, hex, hsub⟩ := ih (acc ++ [p])
      exact ⟨p :: ex, by simpa using hex, List.Sublist.cons₂ p hsub⟩
    · obtain ⟨ex, hex, hsub⟩ := ih acc
      exact ⟨ex, hex, List.Sublist.cons p hsub⟩

theorem admitAux_length_le {α : Type} (brandOf : α → String) (acc l : List α) :
    (admitAux brandOf acc l).length ≤ acc.length + l.length := by
  obtain ⟨ex, hex, hsub⟩ := admitAux_eq_append brandOf acc l
  rw [hex, List.length_append]
  exact Nat.add_le_add_left hsub.length_le _

theorem admitAux_brand_le {α : Type} (brandOf : α → String) (acc l : List α) (k : String)
    (h : brand_count brandOf acc k ≤ 2) :
    brand_count brandOf (admitAux brandOf acc l) k ≤ 2 := by
  induction l generalizing acc with
  | nil => simpa [admitAux] using h
  | cons p rest ih =>
    unfold admitAux
    dsimp only
    split_ifs with hguard
    · apply ih
      unfold brand_count at h ⊢
      rw [List.filter_append, List.length_append]
      by_cases hk : pyLower (brandOf p) = k
      · have : brand_count brandOf acc k < 2 := by
          unfold brand_count
          simpa [hk] using hguard
        unfold brand_count at this
        simp only [List.filter_cons, hk, beq_self_eq_true, if_pos, List.filter_nil]
        simp only [List.length_cons, List.length_nil]
        omega
      · simp only [List.filter_cons, List.filter_nil]
        rw [if_neg (by simpa using hk)]
        simpa using h
    · exact ih acc h

/-- A `Sublist` extraction for `pySliceTake`: a Python slice `l[:k]` is an
initial segment of `l`, hence a sublist, for every `k`. -/
theorem pySliceTake_sublist {α : Type} (l : List α) (k : ℤ) :
    (pySliceTake l k).Sublist l := by
  unfold pySliceTake
  split_ifs <;> exact List.take_sublist _ _

/-- Filtering a concatenation of two blocks that satisfy two opposite
predicates recovers the blocks. -/
theorem filter_split_parts {α : Type} (pH pR : α → Bool) (adm fill : List α)
    (h1 : ∀ a ∈ adm, pH a = true) (h2 : ∀ a ∈ adm, pR a = false)
    (h3 : ∀ a ∈ fill, pR a = true) (h4 : ∀ a ∈ fill, pH a = false) :
    (adm ++ fill).filter pH = adm ∧ (adm ++ fill).filter pR = fill := by
  constructor <;> rw [List.filter_append]
  · rw [List.filter_eq_self.mpr h1, List.filter_eq_nil_iff.mpr
      (fun a ha => by simp [h4 a ha]), List.append_nil]
  · rw [List.filter_eq_self.mpr h3, List.filter_eq_nil_iff.mpr
      (fun a ha => by simp [h2 a ha]), List.nil_append]

/-- C7: on an input sorted descending by total score, the optimizer output
is sorted descending by total score within each partition (health-relevant:
health sub-score > 0.3; regular: ≤ 0.3), and no lower-cased brand occurs
more than twice among the health-relevant admissions. -/
theorem c7_optimize_sorted_brand_cap {α : Type} (healthOf totalOf : α → ℚ)
    (brandOf : α → String) (scored : List α)
    (hsorted : scored.Pairwise (fun a b => totalOf b ≤ totalOf a)) :
    ((optimize_results healthOf brandOf scored).filter
      (fun p => 3/10 < healthOf p)).Pairwise (fun a b => totalOf b ≤ totalOf a) ∧
    ((optimize_results healthOf brandOf scored).filter
      (fun p => healthOf p ≤ 3/10)).Pairwise (fun a b => totalOf b ≤ totalOf a) ∧
    (∀ k, brand_count brandOf ((optimize_results healthOf brandOf scored).filter
      (fun p => 3/10 < healthOf p)) k ≤ 2) := by
  by_cases hemp : scored.isEmpty
  · simp [optimize_results, hemp, brand_count]
  · unfold optimize_results
    rw [if_neg hemp]
    dsimp only
    set hp := scored.filter (fun p => decide (3/10 < healthOf p)) with hhp
    set rp := scored.filter (fun p => decide (healthOf p ≤ 3/10)) with hrp
    set hl := max 6 (Int.toNat ⌊(scored.length : ℚ) * (6/10)⌋) with hhl
    set adm := admitAux brandOf [] (hp.take hl) with hadm_def
    set fill := pySliceTake rp (10 - (adm.length : ℤ)) with hfill_def
    have hadm_sub : adm.Sublist hp := by
      obtain ⟨ex, hex, hsub⟩ := admitAux_eq_append brandOf [] (hp.take hl)
      rw [hadm_def, hex, List.nil_append]
      exact hsub.trans (List.take_sublist _ _)
    have hfill_sub : fill.Sublist rp := pySliceTake_sublist _ _
    have hadm_mem : ∀ a ∈ adm, 3/10 < healthOf a := by
      intro a ha
      have hmem := hadm_sub.subset ha
      rw [hhp] at hmem
      have hpa := List.of_mem_filter hmem
      exact of_decide_eq_true hpa
    have hfill_mem : ∀ a ∈ fill, healthOf a ≤ 3/10 := by
      intro a ha
      have hmem := hfill_sub.subset ha
      rw [hrp] at hmem
      have hpa := List.of_mem_filter hmem
      exact of_decide_eq_true hpa
    obtain ⟨e1, e2⟩ := filter_split_parts (fun p => decide (3/10 < healthOf p))
      (fun p => decide (healthOf p ≤ 3/10)) adm fill
      (fun a ha => decide_eq_true (hadm_mem a ha))
      (fun a ha => decide_eq_false (not_le.2 (hadm_mem a ha)))
      (fun a ha => decide_eq_true (hfill_mem a ha))
      (fun a ha => decide_eq_false (not_lt.2 (hfill_mem a ha)))
    rw [e1, e2]
    refine ⟨?_, ?_, ?_⟩
    · exact List.Pairwise.sublist (hadm_sub.trans (List.filter_sublist _)) hsorted
    · exact List.Pairwise.sublist (hfill_sub.trans (List.filter_sublist _)) hsorted
    · intro k
      rw [hadm_def]
      exact admitAux_brand_le brandOf [] _ k (by simp [brand_count])

/-- Counterexample to C6 as stated: on 19 health-relevant candidates with
distinct brands, `health_limit = max(6, int(19*0.6)) = 11`, so
`_optimize_results` itself returns 11 items — more than the default limit
of 10. -/
theorem c6_optimize_length_counterexample :
    ¬ ((optimize_results healthOfScored brandOfScored c6_scored_products).length ≤ 10) := by
  with_unfolding_all decide

/-- C6 amended: the recommendation list returned by
`generate_recommendations` has length at most the caller-supplied `limit`
(the final `[:limit]` slice enforces this), and `_optimize_results` itself
returns at most 10 items whenever the scored candidate set has at most 18
elements (so that `health_limit ≤ 10` and `remaining_slots ≥ 0`); for
larger candidate sets the health partition alone may exceed 10 admissions,
as the counterexample shows. -/
theorem c6_optimize_length_amended {α : Type} (healthOf : α → ℚ) (brandOf : α → String)
    (scored : List α) (pet : PetProfile) (products : List Product) (limit : ℕ) :
    (scored.length ≤ 18 → (optimize_results healthOf brandOf scored).length ≤ 10) ∧
    (generate_recommendations pet products limit).length ≤ limit := by
  constructor
  · intro hlen
    unfold optimize_results
    split_ifs with hemp
    · simp
    · dsimp only
      have hfloor : Int.toNat ⌊(scored.length : ℚ) * (6/10)⌋ ≤ 10 := by
        have h1 : (scored.length : ℚ) * (6/10) ≤ 54/5 := by
          have : (scored.length : ℚ) ≤ 18 := by exact_mod_cast hlen
          linarith
        have h2 : ⌊(scored.length : ℚ) * (6/10)⌋ ≤ ⌊(54/5 : ℚ)⌋ := Int.floor_le_floor h1
        have h3 : ⌊(54/5 : ℚ)⌋ = 10 := by norm_num [Int.floor_eq_iff]
        omega
      have hlimit : max 6 (Int.toNat ⌊(scored.length : ℚ) * (6/10)⌋) ≤ 10 := by omega
      have hadm : (admitAux brandOf []
          ((scored.filter (fun p => 3/10 < healthOf p)).take
            (max 6 (Int.toNat ⌊(scored.length : ℚ) * (6/10)⌋)))).length ≤ 10 := by
        have := admitAux_length_le brandOf []
          ((scored.filter (fun p => 3/10 < healthOf p)).take
            (max 6 (Int.toNat ⌊(scored.length : ℚ) * (6/10)⌋)))
        have htake : ((scored.filter (fun p => 3/10 < healthOf p)).take
            (max 6 (Int.toNat ⌊(scored.length : ℚ) * (6/10)⌋))).length ≤
            max 6 (Int.toNat ⌊(scored.length : ℚ) * (6/10)⌋) := by
          rw [List.length_take]
          exact min_le_left _ _
        simp only [List.length_nil, Nat.zero_add] at this
        omega
      rw [List.length_append]
      have hfill : (pySliceTake (scored.filter (fun p => healthOf p ≤ 3/10))
          (10 - ((admitAux brandOf []
            ((scored.filter (fun p => 3/10 < healthOf p)).take
              (max 6 (Int.toNat ⌊(scored.length : ℚ) * (6/10)⌋)))).length : ℤ))).length ≤
          10 - (admitAux brandOf []
            ((scored.filter (fun p => 3/10 < healthOf p)).take
              (max 6 (Int.toNat ⌊(scored.length : ℚ) * (6/10)⌋)))).length := by
        unfold pySliceTake
        rw [if_pos (by omega)]
        rw [List.length_take]
        have : ((10:ℤ) - ((admitAux brandOf []
            ((scored.filter (fun p => 3/10 < healthOf p)).take
              (max 6 (Int.toNat ⌊(scored.length : ℚ) * (6/10)⌋)))).length : ℤ)).toNat =
            10 - (admitAux brandOf []
            ((scored.filter (fun p => 3/10 < healthOf p)).take
              (max 6 (Int.toNat ⌊(scored.length : ℚ) * (6/10)⌋)))).length := by omega
        omega
      omega
  · unfold generate_recommendations
    dsimp only
    split_ifs
    · simp
    · rw [List.length_take]
      exact min_le_left _ _

/-- Witness for C6 amended: a single scored candidate yields at most 10
optimized items, and the full pipeline on one product returns at most the
default limit of 10 recommendations. -/
theorem c6_optimize_length_amended_witness :
    ((9:ℕ) ≤ 18) ∧
    (optimize_results healthOfScored brandOfScored (c6_scored_products.take 9)).length ≤ 10 ∧
    (generate_recommendations { category := "Dog" } [{ pet_type := "Dog" }] 10).length ≤ 10 := by
  refine ⟨by decide, ?_, ?_⟩
  · exact (c6_optimize_length_amended healthOfScored brandOfScored
      (c6_scored_products.take 9) { category := "Dog" } [{ pet_type := "Dog" }] 10).1
      (by with_unfolding_all decide)
  · exact (c6_optimize_length_amended healthOfScored brandOfScored
      (c6_scored_products.take 9) { category := "Dog" } [{ pet_type := "Dog" }] 10).2

/-- Witness for C7: a concrete two-element sorted candidate list. -/
theorem c7_optimize_sorted_brand_cap_witness :
    ((c6_scored_products.take 2).Pairwise
      (fun a b => totalOfScored b ≤ totalOfScored a)) ∧
    ((optimize_results healthOfScored brandOfScored (c6_scored_products.take 2)).filter
      (fun p => 3/10 < healthOfScored p)).Pairwise
      (fun a b => totalOfScored b ≤ totalOfScored a) ∧
    ((optimize_results healthOfScored brandOfScored (c6_scored_products.take 2)).filter
      (fun p => healthOfScored p ≤ 3/10)).Pairwise
      (fun a b => totalOfScored b ≤ totalOfScored a) ∧
    (∀ k, brand_count brandOfScored
      ((optimize_results healthOfScored brandOfScored (c6_scored_products.take 2)).filter
        (fun p => 3/10 < healthOfScored p)) k ≤ 2) := by
  have hs : (c6_scored_products.take 2).Pairwise
      (fun a b => totalOfScored b ≤ totalOfScored a) := by
    with_unfolding_all decide
  exact ⟨hs, c7_optimize_sorted_brand_cap healthOfScored totalOfScored brandOfScored
    (c6_scored_products.take 2) hs⟩

/-! ### Membership lemmas for the sort and the optimizer -/
theorem mem_insertDescBy {α : Type} (key : α → ℚ) (x a : α) (l : List α) :
    a ∈ insertDescBy key x l ↔ a = x ∨ a ∈ l := by
  induction l with
  | nil => simp [insertDescBy]
  | cons y ys ih =>
    unfold insertDescBy
    split_ifs with h
    · simp only [List.mem_cons, ih]
      tauto
    · simp only [List.mem_cons]

theorem mem_sortDescBy {α : Type} (key : α → ℚ) (a : α) (l : List α) :
    a ∈ sortDescBy key l ↔ a ∈ l := by
  induction l with
  | nil => simp [sortDescBy]
  | cons x xs ih =>
    unfold sortDescBy
    rw [mem_insertDescBy]
    simp [ih]

theorem optimize_results_subset {α : Type} (healthOf : α → ℚ) (brandOf : α → String)
    (scored : List α) : optimize_results healthOf brandOf scored ⊆ scored := by
  unfold optimize_results
  split_ifs with h
  · intro a ha
    simp at ha
  · dsimp only
    intro a ha
    rcases List.mem_append.1 ha with hadm | hfill
    · obtain ⟨ex, hex, hsub⟩ := admitAux_eq_append brandOf []
        ((scored.filter (fun p => 3/10 < healthOf p)).take
          (max 6 (Int.toNat ⌊(scored.length : ℚ) * (6/10)⌋)))
      rw [hex, List.nil_append] at hadm
      exact (List.filter_sublist _).subset ((List.take_sublist _ _).subset (hsub.subset hadm))
    · exact (List.filter_sublist _).subset ((pySliceTake_sublist _ _).subset hfill)

/-- C9: `generate_recommendations` leaves every supplied product record
unchanged — the final heap extends the initial heap cell-for-cell, and
every reference in the returned recommendation list points into the
freshly allocated copy region (the annotations live only on copies). -/
theorem c9_no_input_mutation (pet : PetProfile) (heap : List AnnProduct) (limit : ℕ) :
    (generate_recommendations_heap pet heap limit).1.take heap.length = heap ∧
    (∀ r ∈ (generate_recommendations_heap pet heap limit).2, heap.length ≤ r) := by
  unfold generate_recommendations_heap
  dsimp only
  split_ifs with h
  · exact ⟨List.take_length heap, by intro r hr; simp at hr⟩
  · constructor
    · exact List.take_left heap _
    · intro r hr
      have h2 := optimize_results_subset _ _ _ ((List.take_subset _ _) hr)
      rw [mem_sortDescBy] at h2
      obtain ⟨j, _, hj⟩ := List.mem_map.1 h2
      omega

/-- Witness for C9: a one-cell heap holding a safe product; the returned
reference list is `[1]` — strictly inside the copy region. -/
theorem c9_no_input_mutation_witness :
    1 ∈ (generate_recommendations_heap { category := "Dog" } c9_witness_heap 10).2 ∧
    c9_witness_heap.length ≤ 1 := by
  constructor
  · with_unfolding_all decide
  · exact (c9_no_input_mutation { category := "Dog" } c9_witness_heap 10).2 1
      (by with_unfolding_all decide)

theorem mem_finalize_clean_loop (p : Product) (seen l : List String) (x : String) :
    x ∈ finalize_clean_loop p seen l ↔
    x ∉ seen ∧ keepTag p x = true ∧ ∃ t ∈ l, ¬(t = "") ∧ cleanTag t = x := by
  induction l generalizing seen with
  | nil => simp [finalize_clean_loop]
  | cons t rest ih =>
    unfold finalize_clean_loop
    dsimp only
    split_ifs with h1 h2 h3 h4
    · -- t is the empty string: skipped
      rw [ih]
      have ht : t = "" := by simpa using h1
      subst ht
      constructor
      · rintro ⟨hs, hk, u, hu, hne, hc⟩
        exact ⟨hs, hk, u, List.mem_cons_of_mem _ hu, hne, hc⟩
      · rintro ⟨hs, hk, u, hu, hne, hc⟩
        rcases List.mem_cons.1 hu with rfl | hu'
        · exact absurd rfl hne
        · exact ⟨hs, hk, u, hu', hne, hc⟩
    · -- too short, or already seen
      rw [ih]
      have hne_t : ¬(t = "") := by simpa using h1
      constructor
      · rintro ⟨hs, hk, u, hu, hne, hc⟩
        exact ⟨hs, hk, u, List.mem_cons_of_mem _ hu, hne, hc⟩
      · rintro ⟨hs, hk, u, hu, hne, hc⟩
        rcases List.mem_cons.1 hu with rfl | hu'
        · exfalso
          rw [Bool.or_eq_true] at h2
          rcases h2 with hlen | hseen
          · rw [hc] at hlen
            have hlt : x.data.length < 2 := of_decide_eq_true hlen
            simp [keepTag] at hk
            have h2le := hk.1.1
            have hxeq : x.length = x.data.length := rfl
            omega
          · rw [hc] at hseen
            exact hs (by simpa using hseen)
        · exact ⟨hs, hk, u, hu', hne, hc⟩
    · -- stopword or excluded
      rw [ih]
      constructor
      · rintro ⟨hs, hk, u, hu, hne, hc⟩
        exact ⟨hs, hk, u, List.mem_cons_of_mem _ hu, hne, hc⟩
      · rintro ⟨hs, hk, u, hu, hne, hc⟩
        rcases List.mem_cons.1 hu with rfl | hu'
        · exfalso
          rw [hc] at h3
          simp [keepTag] at hk
          simp at h3
          tauto
        · exact ⟨hs, hk, u, hu', hne, hc⟩
    · -- noisy ingredient tag on a complex formula
      rw [ih]
      constructor
      · rintro ⟨hs, hk, u, hu, hne, hc⟩
        exact ⟨hs, hk, u, List.mem_cons_of_mem _ hu, hne, hc⟩
      · rintro ⟨hs, hk, u, hu, hne, hc⟩
        rcases List.mem_cons.1 hu with rfl | hu'
        · exfalso
          rw [hc] at h4
          simp [keepTag] at hk
          simp at h4
          rcases hk.2 with hnot | hle
          · exact hnot h4.1
          · omega
        · exact ⟨hs, hk, u, hu', hne, hc⟩
    · -- kept: cleanTag t is emitted and added to seen
      rw [List.mem_cons, ih]
      have hne_t : ¬(t = "") := by simpa using h1
      have hkeep : keepTag p (cleanTag t) = true := by
        rw [Bool.or_eq_true, not_or] at h2
        have hA : decide ((cleanTag t).data.length < 2) = false := by simpa using h2.1
        have hB : (stopwords_list.contains (cleanTag t) ||
            excluded_tags_list.contains (cleanTag t)) = false := by simpa using h3
        have hC : (special_ingredient_tags.contains (cleanTag t) &&
            decide (8 < p.ingredients.length)) = false := by simpa using h4
        unfold keepTag
        rw [hA, hB, hC]
        rfl
      have hnot_seen : cleanTag t ∉ seen := by
        rw [Bool.or_eq_true, not_or] at h2
        simpa using h2.2
      constructor
      · rintro (rfl | ⟨hs, hk, u, hu, hne, hc⟩)
        · exact ⟨hnot_seen, hkeep, t, List.mem_cons_self _ _, hne_t, rfl⟩
        · refine ⟨fun hmem => hs (List.mem_cons_of_mem _ hmem), hk, u,
            List.mem_cons_of_mem _ hu, hne, hc⟩
      · rintro ⟨hs, hk, u, hu, hne, hc⟩
        by_cases hxc : x = cleanTag t
        · exact Or.inl hxc
        · right
          rcases List.mem_cons.1 hu with rfl | hu'
          · exact absurd hc.symm hxc
          · refine ⟨?_, hk, u, hu', hne, hc⟩
            intro hmem
            rcases List.mem_cons.1 hmem with rfl | hmem'
            · exact hxc rfl
            · exact hs hmem'

theorem nodup_finalize_clean_loop (p : Product) (seen l : List String) :
    (finalize_clean_loop p seen l).Nodup := by
  induction l generalizing seen with
  | nil => simp [finalize_clean_loop]
  | cons t rest ih =>
    unfold finalize_clean_loop
    dsimp only
    split_ifs with h1 h2 h3 h4
    · exact ih seen
    · exact ih seen
    · exact ih seen
    · exact ih seen
    · refine List.Nodup.cons ?_ (ih _)
      intro hmem
      exact ((mem_finalize_clean_loop p _ rest _).1 hmem).1 (List.mem_cons_self _ _)

theorem finalize_clean_loop_perm (p : Product) {l1 l2 : List String} (h : l1.Perm l2) :
    (finalize_clean_loop p [] l1).Perm (finalize_clean_loop p [] l2) := by
  rw [List.perm_ext_iff_of_nodup (nodup_finalize_clean_loop p [] l1)
    (nodup_finalize_clean_loop p [] l2)]
  intro x
  rw [mem_finalize_clean_loop, mem_finalize_clean_loop]
  constructor <;> rintro ⟨hs, hk, u, hu, hne, hc⟩
  · exact ⟨hs, hk, u, h.mem_iff.1 hu, hne, hc⟩
  · exact ⟨hs, hk, u, h.mem_iff.2 hu, hne, hc⟩

/-! ### The tier decomposition is a permutation of the cleaned tags -/
theorem tierOf_cases (x : String) :
    tierOf x = 1 ∨ tierOf x = 2 ∨ tierOf x = 3 ∨ tierOf x = 4 ∨ tierOf x = 5 := by
  unfold tierOf
  split_ifs <;> simp

theorem tier_concat_perm (l : List String) :
    (l.filter (fun t => tierOf t == 1) ++ l.filter (fun t => tierOf t == 2) ++
     l.filter (fun t => tierOf t == 3) ++ l.filter (fun t => tierOf t == 4) ++
     l.filter (fun t => tierOf t == 5)).Perm l := by
  induction l with
  | nil => simp
  | cons x xs ih =>
    simp only [List.append_assoc] at ih ⊢
    rcases tierOf_cases x with h | h | h | h | h <;>
      simp only [List.filter_cons, h, show ((1:ℕ) == 1) = true from rfl,
        show ((1:ℕ) == 2) = false from rfl, show ((1:ℕ) == 3) = false from rfl,
        show ((1:ℕ) == 4) = false from rfl, show ((1:ℕ) == 5) = false from rfl,
        show ((2:ℕ) == 1) = false from rfl, show ((2:ℕ) == 2) = true from rfl,
        show ((2:ℕ) == 3) = false from rfl, show ((2:ℕ) == 4) = false from rfl,
        show ((2:ℕ) == 5) = false from rfl, show ((3:ℕ) == 1) = false from rfl,
        show ((3:ℕ) == 2) = false from rfl, show ((3:ℕ) == 3) = true from rfl,
        show ((3:ℕ) == 4) = false from rfl, show ((3:ℕ) == 5) = false from rfl,
        show ((4:ℕ) == 1) = false from rfl, show ((4:ℕ) == 2) = false from rfl,
        show ((4:ℕ) == 3) = false from rfl, show ((4:ℕ) == 4) = true from rfl,
        show ((4:ℕ) == 5) = false from rfl, show ((5:ℕ) == 1) = false from rfl,
        show ((5:ℕ) == 2) = false from rfl, show ((5:ℕ) == 3) = false from rfl,
        show ((5:ℕ) == 4) = false from rfl, show ((5:ℕ) == 5) = true from rfl,
        if_true, if_false, List.append_assoc]
    · exact ih.cons x
    · exact List.perm_middle.trans (ih.cons x)
    · exact ((List.Perm.append_left _ List.perm_middle).trans List.perm_middle).trans
        (ih.cons x)
    · exact ((List.Perm.append_left _ (List.Perm.append_left _ List.perm_middle)).trans
        (((List.Perm.append_left _ List.perm_middle)).trans List.perm_middle)).trans
        (ih.cons x)
    · exact ((List.Perm.append_left _ (List.Perm.append_left _
        (List.Perm.append_left _ List.perm_middle))).trans
        (((List.Perm.append_left _ (List.Perm.append_left _ List.perm_middle))).trans
        (((List.Perm.append_left _ List.perm_middle)).trans List.perm_middle))).trans
        (ih.cons x)

/-! ### Lower-case character facts -/
theorem toLower_not_upper (c : Char) : (Char.toLower c).isUpper = false := by
  unfold Char.toLower
  dsimp only
  split_ifs with h
  · obtain ⟨h1, h2⟩ := h
    have hv : (Char.toNat c + 32).isValidChar := Or.inl (by omega)
    unfold Char.ofNat
    rw [dif_pos hv]
    unfold Char.isUpper
    have hle : ¬ ((Char.ofNatAux (Char.toNat c + 32) hv).val ≤ 90) := by
      show ¬ ((Char.ofNatAux (Char.toNat c + 32) hv).val.toNat ≤ (90:UInt32).toNat)
      have htn : (Char.ofNatAux (Char.toNat c + 32) hv).val.toNat = Char.toNat c + 32 := rfl
      rw [htn]
      show ¬ (Char.toNat c + 32 ≤ 90)
      omega
    simp [hle]
  · unfold Char.isUpper
    rw [Bool.and_eq_false_iff]
    by_cases h65 : 65 ≤ Char.toNat c
    · right
      have hle : ¬ (c.val ≤ 90) := by
        show ¬ (c.val.toNat ≤ (90:UInt32).toNat)
        show ¬ (c.val.toNat ≤ 90)
        unfold Char.toNat at h h65
        omega
      simpa using hle
    · left
      have hle : ¬ (65 ≤ c.val) := by
        show ¬ ((65:UInt32).toNat ≤ c.val.toNat)
        show ¬ (65 ≤ c.val.toNat)
        unfold Char.toNat at h65
        omega
      simpa using hle

theorem noUpper_pyLower (s : String) : ∀ c ∈ (pyLower s).data, c.isUpper = false := by
  intro c hc
  unfold pyLower at hc
  obtain ⟨d, _, rfl⟩ := List.mem_map.1 hc
  exact toLower_not_upper d

theorem noUpper_spaceToHyphen (s : String) (h : ∀ c ∈ s.data, c.isUpper = false) :
    ∀ c ∈ (spaceToHyphen s).data, c.isUpper = false := by
  intro c hc
  unfold spaceToHyphen at hc
  obtain ⟨d, hd, rfl⟩ := List.mem_map.1 hc
  split_ifs with hsp
  · decide
  · exact h d hd

theorem noUpper_cleanTag (tag : String) :
    ∀ c ∈ (cleanTag tag).data, c.isUpper = false := by
  intro c hc
  unfold cleanTag at hc
  have := List.mem_of_mem_filter hc
  exact noUpper_pyLower (pyStrip tag) c this

/-! ### Facts about `finalize_enhanced_tags` -/
theorem finalize_perm_cleaned (p : Product) (tags : List String)
    (h : (finalize_clean_loop p [] tags).length ≤ 25) :
    (finalize_enhanced_tags tags p).Perm (finalize_clean_loop p [] tags) := by
  unfold finalize_enhanced_tags
  dsimp only
  have hp := tier_concat_perm (finalize_clean_loop p [] tags)
  rw [List.take_of_length_le (by rw [hp.length_eq]; exact h)]
  exact hp

theorem finalize_length_le (tags : List String) (p : Product) :
    (finalize_enhanced_tags tags p).length ≤ 25 := by
  unfold finalize_enhanced_tags
  dsimp only
  rw [List.length_take]
  exact min_le_left _ _

theorem finalize_nodup (tags : List String) (p : Product) :
    (finalize_enhanced_tags tags p).Nodup := by
  unfold finalize_enhanced_tags
  dsimp only
  apply List.Nodup.sublist (List.take_sublist _ _)
  exact (nodup_finalize_clean_loop p [] tags).perm (tier_concat_perm _).symm

theorem finalize_noUpper (tags : List String) (p : Product) :
    ∀ x ∈ finalize_enhanced_tags tags p, ∀ c ∈ x.data, c.isUpper = false := by
  intro x hx
  unfold finalize_enhanced_tags at hx
  dsimp only at hx
  have hx2 := (List.take_subset _ _) hx
  have hx3 : x ∈ finalize_clean_loop p [] tags := (tier_concat_perm _).subset hx2
  obtain ⟨-, -, t, -, -, hc⟩ := (mem_finalize_clean_loop p [] tags x).1 hx3
  rw [← hc]
  exact noUpper_cleanTag t

theorem fallback_length_le (p : Product) : (get_basic_tags_fallback p).length ≤ 3 := by
  unfold get_basic_tags_fallback
  split_ifs <;> simp

theorem fallback_noUpper (p : Product) :
    ∀ x ∈ get_basic_tags_fallback p, ∀ c ∈ x.data, c.isUpper = false := by
  intro x hx
  unfold get_basic_tags_fallback at hx
  have hcases : x = pyLower p.pet_type ∨ x = pyLower p.category ∨
      x = spaceToHyphen (pyLower p.sub_category) := by
    split_ifs at hx <;> simp at hx <;> tauto
  rcases hcases with rfl | rfl | rfl
  · exact noUpper_pyLower _
  · exact noUpper_pyLower _
  · exact noUpper_spaceToHyphen _ (noUpper_pyLower _)

/-- Counterexample to C5 as stated: on an item with no text and
`pet_type == category`, `generate_tags` takes the fallback path and
returns `["dog", "dog"]` — a duplicated entry. -/
theorem c5_tag_shape_counterexample :
    generate_tags_run c5_item [] = ["dog", "dog"] ∧
    ¬ (generate_tags_run c5_item []).Nodup := by
  constructor
  · with_unfolding_all decide
  · with_unfolding_all decide

/-- C5 amended: every run returns at most 25 tags, every returned tag is
free of upper-case letters, and the tags are pairwise distinct on the
normal extraction path (non-blank text); the empty-text fallback can
return a duplicate when `pet_type` and `category` coincide. -/
theorem c5_tag_shape_amended (p : Product) (enum : List String) :
    (generate_tags_run p enum).length ≤ 25 ∧
    (∀ x ∈ generate_tags_run p enum, ∀ c ∈ x.data, c.isUpper = false) ∧
    (text_is_blank p = false → (generate_tags_run p enum).Nodup) := by
  unfold generate_tags_run
  split_ifs with hb
  · refine ⟨le_trans (fallback_length_le p) (by norm_num), fallback_noUpper p, ?_⟩
    intro hfalse
    rw [hb] at hfalse
    cases hfalse
  · exact ⟨finalize_length_le enum p, finalize_noUpper enum p,
      fun _ => finalize_nodup enum p⟩

/-- Witness for C5 amended: the normal path on `nonblank_item`. -/
theorem c5_tag_shape_amended_witness :
    text_is_blank nonblank_item = false ∧
    (generate_tags_run nonblank_item ["joint-support", "dental-care"]).Nodup := by
  constructor
  · with_unfolding_all decide
  · exact (c5_tag_shape_amended nonblank_item ["joint-support", "dental-care"]).2.2
      (by with_unfolding_all decide)

/-! ### C4: determinism of `generate_tags` -/
/-- Counterexample to C4 as stated: both enumerations are orders of the
same extracted tag set of `nonblank_item` (as produced by
`list(extracted_tags)` under two hash seeds), yet the two runs return
differently ordered tag lists. -/
theorem c4_determinism_counterexample :
    (["joint-support", "dental-care"] : List String).Perm
      (extracted_tags_list nonblank_item) ∧
    (["dental-care", "joint-support"] : List String).Perm
      (extracted_tags_list nonblank_item) ∧
    generate_tags_run nonblank_item ["joint-support", "dental-care"] ≠
      generate_tags_run nonblank_item ["dental-care", "joint-support"] := by
  refine ⟨?_, ?_, ?_⟩
  · with_unfolding_all decide
  · with_unfolding_all decide
  · with_unfolding_all decide

/-- C4 amended: a run of `generate_tags` is a pure function of the item
and of the set-enumeration order, so two runs with the same hash seed
return identical lists; across different enumeration orders of the same
extracted set the returned lists are permutations of one another whenever
at most 25 tags survive cleaning — the truncation and the within-tier
order (hence, beyond 25 tags, also the surviving set) follow the
enumeration order, which hash randomization changes between processes. -/
theorem c4_determinism_amended (p : Product) (e1 e2 : List String)
    (h : e1.Perm e2) (hlen : (finalize_clean_loop p [] e1).length ≤ 25) :
    (generate_tags_run p e1).Perm (generate_tags_run p e2) := by
  unfold generate_tags_run
  split_ifs with hb
  · exact List.Perm.refl _
  · have h1 := finalize_perm_cleaned p e1 hlen
    have hc := finalize_clean_loop_perm p h
    have h2 := finalize_perm_cleaned p e2 (by rw [← hc.length_eq]; exact hlen)
    exact (h1.trans hc).trans h2.symm

/-- Witness for C4 amended: the two enumerations of `nonblank_item`'s
extracted set produce permutations of each other. -/
theorem c4_determinism_amended_witness :
    (["joint-support", "dental-care"] : List String).Perm
      ["dental-care", "joint-support"] ∧
    (finalize_clean_loop nonblank_item [] ["joint-support", "dental-care"]).length ≤ 25 ∧
    (generate_tags_run nonblank_item ["joint-support", "dental-care"]).Perm
      (generate_tags_run nonblank_item ["dental-care", "joint-support"]) := by
  refine ⟨by decide, by with_unfolding_all decide, ?_⟩
  exact c4_determinism_amended nonblank_item _ _ (by decide) (by with_unfolding_all decide)

/-- C10: the boolean gate and the explanation list are decided by the same
four checks: `is_product_safe_for_pet` returns `false` iff
`get_safety_reasons` returns a non-empty list. -/
theorem c10_unsafe_iff_reasons (pet : PetProfile) (product : Product) :
    is_product_safe_for_pet pet product = false ↔ get_safety_reasons pet product ≠ [] := by
  cases h1 : check_age_compatibility pet product <;>
    cases h2 : check_allergies pet product <;>
      cases h3 : check_health_conditions pet product <;>
        cases h4 : check_species_compatibility pet product <;>
          simp [is_product_safe_for_pet, get_safety_reasons, h1, h2, h3, h4]

end Marshee
